import Mathlib

/-!
Prometheus ESP8266 exporter: sensor sampling and metrics rendering.

A shallow embedding of `src/main.cpp`: the bounded retry loop `read_sensor`,
the two channel readers, `read_sensors`, the logging functions and the three
HTTP handlers, followed by theorems about them.

Conventions of the embedding.

* A C string is the list of its bytes before the terminating NUL, one `Char`
  per byte (`CString`).
* A `float` is an IEEE-754 binary32 value, kept as its bit pattern (`F32`).
  Only its classification (`isnan`, infinite, finite) is ever inspected.
* The hardware is an oracle (`Board`): the k-th call of a read function or of
  `millis()` returns the k-th element of a stream.  The running program keeps
  the number of calls made so far in its `State`.
* `handle_http_metrics` pastes the macro `PROM_NAMESPACE` into the format
  string of its `snprintf`, so that call is run through `format`, a model of
  the printf conversions it uses.  The other `snprintf` calls have a literal
  format string and pass every variable text as an argument; their
  conversions are written out as concatenations.
* Everything the firmware does to the outside world is appended, in order, to
  `State.trace`.
* `config.h` and `version.h` are not part of the sources; their macros are the
  fields of `Config`.
-/

namespace Exporter

/-- Bytes of a NUL-terminated C string, terminator excluded. -/
abbrev CString := List Char

/-- An IEEE-754 binary32 `float`, by its bit pattern (low 32 bits of `bits`). -/
structure F32 where
  bits : Nat
deriving DecidableEq, Repr

/-- Biased exponent field, bits 23..30. -/
def F32.exponent (x : F32) : Nat := (x.bits / 2 ^ 23) % 256

/-- Fraction field, bits 0..22. -/
def F32.mantissa (x : F32) : Nat := x.bits % 2 ^ 23

/-- C `isnan`: exponent all ones, fraction non-zero. -/
def isnan (x : F32) : Bool := x.exponent == 255 && x.mantissa != 0

/-- C `isinf`: exponent all ones, fraction zero. -/
def isinf (x : F32) : Bool := x.exponent == 255 && x.mantissa == 0

/-- C `isfinite`: neither NaN nor infinite. -/
def isfinite (x : F32) : Bool := x.exponent != 255

/-- The quiet NaN `0x7FC00000`. -/
def F32.qnan : F32 := ⟨0x7FC00000⟩

/-- Positive infinity `0x7F800000`. -/
def F32.pinf : F32 := ⟨0x7F800000⟩

/-- Negative infinity `0xFF800000`. -/
def F32.ninf : F32 := ⟨0xFF800000⟩

/-- The binary32 value nearest to 7.4, `0x40ECCCCD`. -/
def F32.v7_4 : F32 := ⟨0x40ECCCCD⟩

/-- The binary32 value 123.0, `0x42F60000`. -/
def F32.v123 : F32 := ⟨0x42F60000⟩

/-- The binary32 value 0.0. -/
def F32.zero : F32 := ⟨0⟩

/-- `enum LogLevel`. -/
inductive LogLevel where
  | DEBUG
  | INFO
  | ERROR
deriving DecidableEq, Repr

/-- `HTTPMethod` of the web-server library: the seven values that
`get_http_method_name` names, and every other enumerator. -/
inductive HTTPMethod where
  | HTTP_GET
  | HTTP_HEAD
  | HTTP_POST
  | HTTP_PUT
  | HTTP_PATCH
  | HTTP_DELETE
  | HTTP_OPTIONS
  | other (code : Nat)
deriving DecidableEq, Repr

/-- What `log` hands to `Serial.println`: the record is
`"[%10.3f] [%-5s] %s"` filled with `millis() / 1000.0`, the level name and the
message.  The three ingredients are kept apart; `millis` is the clock value
read by `log`.  (Every message of this program has at most 127 bytes, so the
150-byte record buffer does not cut the message.) -/
structure LogRecord where
  millis : Nat
  level : LogLevel
  message : CString
deriving DecidableEq, Repr

/-- One externally visible action of the firmware. -/
inductive Effect where
  | getBusVoltage_V (result : F32)
  | getCurrent_mA (result : F32)
  | println (record : LogRecord)
  | send (code : Nat) (content_type : CString) (content : CString)
deriving DecidableEq, Repr

/-- The macros of `config.h` and `version.h` used by the embedded functions. -/
structure Config where
  READ_TRY_COUNT : Int
  DEBUG_MODE : Int
  PROM_NAMESPACE : CString
  HTTP_METRICS_ENDPOINT : CString
  VERSION : CString
  BOARD_NAME : CString
  SENSOR_NAME : CString

/-- The platform under the firmware.  `getBusVoltage_V k`, `getCurrent_mA k`
and `millis k` are the results of the k-th call (counted from 0) of the
respective function; `fmt_f` is printf's `%f` conversion of a `float`
argument. -/
structure Board where
  getBusVoltage_V : Nat → F32
  getCurrent_mA : Nat → F32
  millis : Nat → Nat
  fmt_f : F32 → CString

/-- The request being served, as `http_server` reports it. -/
structure Request where
  remoteIP : CString
  remotePort : Nat
  method : HTTPMethod
  uri : CString

/-- The globals of `main.cpp` together with the bookkeeping of the oracle
(calls made so far) and the trace of effects. -/
structure State where
  busvoltage : F32
  current_mA : F32
  previous_read_time : Nat
  voltage_calls : Nat
  current_calls : Nat
  millis_calls : Nat
  trace : List Effect
deriving DecidableEq, Repr

/-- State right after the static initialisers of `main.cpp`. -/
def State.init : State :=
  { busvoltage := F32.zero, current_mA := F32.zero, previous_read_time := 0,
    voltage_calls := 0, current_calls := 0, millis_calls := 0, trace := [] }

/-- The two `float` globals a `float *value` can point to. -/
inductive FloatVar where
  | busvoltage
  | current_mA
deriving DecidableEq, Repr

/-- Read through a `float *`. -/
def State.load (s : State) : FloatVar → F32
  | FloatVar.busvoltage => s.busvoltage
  | FloatVar.current_mA => s.current_mA

/-- Write through a `float *`. -/
def State.store (s : State) (p : FloatVar) (v : F32) : State :=
  match p with
  | FloatVar.busvoltage => { s with busvoltage := v }
  | FloatVar.current_mA => { s with current_mA := v }

/-- `millis()`: the next clock value, as a 32-bit unsigned number. -/
def millis (board : Board) (s : State) : Nat × State :=
  (board.millis s.millis_calls % 2 ^ 32, { s with millis_calls := s.millis_calls + 1 })

/-- `snprintf(buf, size, ...)` keeps at most `size - 1` bytes of the full text. -/
def snprintf (size : Nat) (full : CString) : CString := full.take (size - 1)

/-- `log(message, level)`. -/
def log (cfg : Config) (board : Board) (message : CString) (level : LogLevel)
    (s : State) : State :=
  if cfg.DEBUG_MODE = 0 ∧ level = LogLevel.DEBUG then s
  else
    let (t, s1) := millis board s
    { s1 with trace := s1.trace ++ [Effect.println ⟨t, level, message⟩] }

/-- The lambda `[] { return ina219.getBusVoltage_V(); }`. -/
def getBusVoltage_V (board : Board) (s : State) : F32 × State :=
  let r := board.getBusVoltage_V s.voltage_calls
  (r, { s with voltage_calls := s.voltage_calls + 1,
               trace := s.trace ++ [Effect.getBusVoltage_V r] })

/-- The lambda `[] { return ina219.getCurrent_mA(); }`. -/
def getCurrent_mA (board : Board) (s : State) : F32 × State :=
  let r := board.getCurrent_mA s.current_calls
  (r, { s with current_calls := s.current_calls + 1,
               trace := s.trace ++ [Effect.getCurrent_mA r] })

/-- The `for` loop of `read_sensor`; `remaining` is `READ_TRY_COUNT - i`, the
number of iterations still allowed.  Returns `success` and the new state. -/
def read_sensor_loop (cfg : Config) (board : Board) (function : State → F32 × State)
    (value : FloatVar) : Nat → State → Bool × State
  | 0, s => (false, s)
  | remaining + 1, s =>
    let (r, s1) := function s
    let s2 := s1.store value r
    if !isnan (s2.load value) then (true, s2)
    else
      read_sensor_loop cfg board function value remaining
        (log cfg board "Failed to read sensor.".toList LogLevel.DEBUG s2)

/-- `bool read_sensor(float (*function)(), float *value)`.  The counter `i`
runs from 0 while `i < READ_TRY_COUNT`, so the body is entered at most
`READ_TRY_COUNT` times (not at all when the bound is zero or negative). -/
def read_sensor (cfg : Config) (board : Board) (function : State → F32 × State)
    (value : FloatVar) (s : State) : Bool × State :=
  read_sensor_loop cfg board function value cfg.READ_TRY_COUNT.toNat s

/-- `read_voltage_sensor()`. -/
def read_voltage_sensor (cfg : Config) (board : Board) (s : State) : State :=
  let s1 := log cfg board "Reading voltage sensor ...".toList LogLevel.DEBUG s
  let (result, s2) := read_sensor cfg board (getBusVoltage_V board) FloatVar.busvoltage s1
  if !result then log cfg board "Failed to read voltage sensor.".toList LogLevel.ERROR s2
  else s2

/-- `read_current_sensor()`. -/
def read_current_sensor (cfg : Config) (board : Board) (s : State) : State :=
  let s1 := log cfg board "Reading current sensor ...".toList LogLevel.DEBUG s
  let (result, s2) := read_sensor cfg board (getCurrent_mA board) FloatVar.current_mA s1
  if !result then log cfg board "Failed to read current sensor.".toList LogLevel.ERROR s2
  else s2

/-- `read_sensors(force)`; the parameter is not used by the body. -/
def read_sensors (cfg : Config) (board : Board) (_force : Bool) (s : State) : State :=
  let (current_time, s1) := millis board s
  let s2 := { s1 with previous_read_time := current_time }
  read_current_sensor cfg board (read_voltage_sensor cfg board s2)

/-- `get_http_method_name(name, name_length, method)`: the text left in `name`. -/
def get_http_method_name (name_length : Nat) (method : HTTPMethod) : CString :=
  match method with
  | HTTPMethod.HTTP_GET => snprintf name_length "GET".toList
  | HTTPMethod.HTTP_HEAD => snprintf name_length "HEAD".toList
  | HTTPMethod.HTTP_POST => snprintf name_length "POST".toList
  | HTTPMethod.HTTP_PUT => snprintf name_length "PUT".toList
  | HTTPMethod.HTTP_PATCH => snprintf name_length "PATCH".toList
  | HTTPMethod.HTTP_DELETE => snprintf name_length "DELETE".toList
  | HTTPMethod.HTTP_OPTIONS => snprintf name_length "OPTIONS".toList
  | HTTPMethod.other _ => snprintf name_length "UNKNOWN".toList

/-- The text `"Request: client=%s:%u method=%s path=%s"` with its four
conversions filled in, before it is cut to the message buffer. -/
def request_text (req : Request) : CString :=
  "Request: client=".toList ++ req.remoteIP ++ ":".toList ++ Nat.toDigits 10 req.remotePort
    ++ " method=".toList ++ get_http_method_name 16 req.method
    ++ " path=".toList ++ req.uri

/-- `log_request()`. -/
def log_request (cfg : Config) (board : Board) (req : Request) (s : State) : State :=
  let message := snprintf 128 (request_text req)
  log cfg board message LogLevel.INFO s

/-- `http_server.send(code, content_type, content)`. -/
def send (code : Nat) (content_type : CString) (content : CString) (s : State) : State :=
  { s with trace := s.trace ++ [Effect.send code content_type content] }

/-- The content type used by all three handlers. -/
def text_plain : CString := "text/plain; charset=utf-8".toList

/-- The help text of `handle_http_root` with `%s` filled in, before it is cut
to the buffer. -/
def root_text (cfg : Config) : CString :=
  "Prometheus ESP8266 DHT Exporter by HON95.\n".toList
    ++ "\n".toList
    ++ "Project: https://github.com/HON95/prometheus-esp8266-dht-exporter\n".toList
    ++ "\n".toList
    ++ "Usage: ".toList ++ cfg.HTTP_METRICS_ENDPOINT ++ "\n".toList

/-- `handle_http_root()`. -/
def handle_http_root (cfg : Config) (board : Board) (req : Request) (s : State) : State :=
  let s1 := log_request cfg board req s
  let response := snprintf 256 (root_text cfg)
  send 200 text_plain response s1

/-- `handle_http_not_found()`. -/
def handle_http_not_found (cfg : Config) (board : Board) (req : Request) (s : State) :
    State :=
  let s1 := log_request cfg board req s
  send 404 text_plain "Not found.".toList s1

/-- An argument passed to printf after the format string. -/
inductive Arg where
  | str (v : CString)
  | flt (x : F32)
deriving DecidableEq, Repr

/-- The printf conversions that `handle_http_metrics` relies on, run over a
format string: `%s` takes a string argument, `%f` a floating argument, `%%`
prints a percent sign, every other byte is copied.  Any other use of `%`
(another conversion, or an argument of the wrong kind or missing) has no
behaviour defined here: the result is `none`. -/
def format (fmt_f : F32 → CString) : CString → List Arg → Option CString
  | [], _ => some []
  | [c], _ => if c = '%' then none else some [c]
  | c :: d :: rest, args =>
    if c = '%' then
      if d = '%' then (format fmt_f rest args).map (fun out => '%' :: out)
      else if d = 's' then
        match args with
        | Arg.str v :: args1 => (format fmt_f rest args1).map (fun out => v ++ out)
        | _ => none
      else if d = 'f' then
        match args with
        | Arg.flt x :: args1 => (format fmt_f rest args1).map (fun out => fmt_f x ++ out)
        | _ => none
      else none
    else (format fmt_f (d :: rest) args).map (fun out => c :: out)

/-- The string literal `response_template` of `handle_http_metrics`, with the
macro `PROM_NAMESPACE` spliced in by the preprocessor. -/
def response_template (ns : CString) : CString :=
  "# HELP ".toList ++ ns ++ "_info Metadata about the device.\n".toList
    ++ "# TYPE ".toList ++ ns ++ "_info gauge\n".toList
    ++ "# UNIT ".toList ++ ns ++ "_info \n".toList
    ++ ns ++ "_info\x7bversion=\"%s\",board=\"%s\",sensor=\"%s\"\x7d 1\n".toList
    ++ "# HELP ".toList ++ ns ++ "_battery_voltage Battery Voltage.\n".toList
    ++ "# TYPE ".toList ++ ns ++ "_battery_voltage gauge\n".toList
    ++ "# UNIT ".toList ++ ns ++ "_battery_voltage V\n".toList
    ++ ns ++ "_battery_voltage %f\n".toList
    ++ "# HELP ".toList ++ ns ++ "_battery_current Battery Current.\n".toList
    ++ "# TYPE ".toList ++ ns ++ "_battery_current gauge\n".toList
    ++ "# UNIT ".toList ++ ns ++ "_battery_current mA\n".toList
    ++ ns ++ "_battery_current %f\n".toList

/-- The document that the `snprintf` of `handle_http_metrics` would produce in
an unbounded buffer, for the values `busvoltage` and `current_mA`. -/
def render (cfg : Config) (board : Board) (busvoltage current_mA : F32) : Option CString :=
  format board.fmt_f (response_template cfg.PROM_NAMESPACE)
    [Arg.str cfg.VERSION, Arg.str cfg.BOARD_NAME, Arg.str cfg.SENSOR_NAME,
     Arg.flt busvoltage, Arg.flt current_mA]

/-- `handle_http_metrics()`.  The result is `none` exactly when the success
path reaches a printf call whose behaviour `format` does not define. -/
def handle_http_metrics (cfg : Config) (board : Board) (req : Request) (s : State) :
    Option State :=
  let s1 := log_request cfg board req s
  let s2 := read_sensors cfg board false s1
  if isnan s2.busvoltage || isnan s2.current_mA then
    some (send 500 text_plain "Sensor error.".toList s2)
  else
    match render cfg board s2.busvoltage s2.current_mA with
    | none => none
    | some full =>
      let response := snprintf 1024 full
      some (send 200 text_plain response s2)

/-! ## Vocabulary for the statements -/

/-- The two measurement channels of the firmware. -/
inductive Channel where
  | voltage
  | current
deriving DecidableEq, Repr

/-- The read function that the channel's reader passes to `read_sensor`. -/
def Channel.function (ch : Channel) (board : Board) : State → F32 × State :=
  match ch with
  | Channel.voltage => getBusVoltage_V board
  | Channel.current => getCurrent_mA board

/-- The global that the channel's reader passes to `read_sensor`. -/
def Channel.value : Channel → FloatVar
  | Channel.voltage => FloatVar.busvoltage
  | Channel.current => FloatVar.current_mA

/-- Number of calls of the channel's read function made so far. -/
def Channel.calls (ch : Channel) (s : State) : Nat :=
  match ch with
  | Channel.voltage => s.voltage_calls
  | Channel.current => s.current_calls

/-- The stream of readings that the hardware returns on the channel. -/
def Channel.readings (ch : Channel) (board : Board) : Nat → F32 :=
  match ch with
  | Channel.voltage => board.getBusVoltage_V
  | Channel.current => board.getCurrent_mA

/-- The other channel. -/
def Channel.other : Channel → Channel
  | Channel.voltage => Channel.current
  | Channel.current => Channel.voltage

/-- The responses sent in a trace, oldest first. -/
def responses (t : List Effect) : List (Nat × CString × CString) :=
  t.filterMap (fun e =>
    match e with
    | Effect.send code content_type content => some (code, content_type, content)
    | _ => none)

/-- The messages of the log records of one severity in a trace, oldest first. -/
def records (level : LogLevel) (t : List Effect) : List CString :=
  t.filterMap (fun e =>
    match e with
    | Effect.println r => if r.level = level then some r.message else none
    | _ => none)

/-- The sensor reads in a trace: the channel and the value returned, oldest first. -/
def sensor_reads (t : List Effect) : List (Channel × F32) :=
  t.filterMap (fun e =>
    match e with
    | Effect.getBusVoltage_V r => some (Channel.voltage, r)
    | Effect.getCurrent_mA r => some (Channel.current, r)
    | _ => none)

/-- What one pass of the retry loop leaves behind, as a function of the
readings alone: `scan readings m i v` runs at most `m` attempts starting with
reading number `i`, with `v` the value stored beforehand, and gives the success
flag, the stored value and the number of the next unread reading. -/
def scan (readings : Nat → F32) : Nat → Nat → F32 → Bool × F32 × Nat
  | 0, i, v => (false, v, i)
  | m + 1, i, _ =>
    if !isnan (readings i) then (true, readings i, i + 1)
    else scan readings m (i + 1) (readings i)

/-- The value of the local `result` of `read_voltage_sensor` entered in state `s`:
what its call of `read_sensor` returns. -/
def voltage_result (cfg : Config) (board : Board) (s : State) : Bool :=
  (read_sensor cfg board (getBusVoltage_V board) FloatVar.busvoltage
    (log cfg board "Reading voltage sensor ...".toList LogLevel.DEBUG s)).1

/-- The value of the local `result` of `read_current_sensor` entered in state `s`:
what its call of `read_sensor` returns. -/
def current_result (cfg : Config) (board : Board) (s : State) : Bool :=
  (read_sensor cfg board (getCurrent_mA board) FloatVar.current_mA
    (log cfg board "Reading current sensor ...".toList LogLevel.DEBUG s)).1

/-- The state in which `read_sensors`, entered in state `s`, calls
`read_voltage_sensor`: the clock has been read and stored. -/
def read_sensors_entry (board : Board) (s : State) : State :=
  { (millis board s).2 with previous_read_time := (millis board s).1 }

/-- The state in which `handle_http_metrics`, entered in state `s`, tests the
two globals: the request has been logged and the sensors have been read. -/
def metrics_state (cfg : Config) (board : Board) (req : Request) (s : State) : State :=
  read_sensors cfg board false (log_request cfg board req s)

/-- What `read_sensor` returns for the voltage channel while
`handle_http_metrics`, entered in state `s`, runs. -/
def metrics_voltage_result (cfg : Config) (board : Board) (req : Request) (s : State) : Bool :=
  voltage_result cfg board (read_sensors_entry board (log_request cfg board req s))

/-- What `read_sensor` returns for the current channel while
`handle_http_metrics`, entered in state `s`, runs. -/
def metrics_current_result (cfg : Config) (board : Board) (req : Request) (s : State) : Bool :=
  current_result cfg board
    (read_voltage_sensor cfg board (read_sensors_entry board (log_request cfg board req s)))

/-- The exposition document as the code lays it out: twelve lines, each ended
by a newline, the third one being `# UNIT <ns>_info` followed by a blank.
`fv` and `fc` are the `%f` renderings of the voltage and of the current. -/
def document (ns v b sn fv fc : CString) : CString :=
  "# HELP ".toList ++ ns ++ "_info Metadata about the device.\n".toList
    ++ "# TYPE ".toList ++ ns ++ "_info gauge\n".toList
    ++ "# UNIT ".toList ++ ns ++ "_info \n".toList
    ++ ns ++ "_info\x7bversion=\"".toList ++ v ++ "\",board=\"".toList ++ b
      ++ "\",sensor=\"".toList ++ sn ++ "\"\x7d 1\n".toList
    ++ "# HELP ".toList ++ ns ++ "_battery_voltage Battery Voltage.\n".toList
    ++ "# TYPE ".toList ++ ns ++ "_battery_voltage gauge\n".toList
    ++ "# UNIT ".toList ++ ns ++ "_battery_voltage V\n".toList
    ++ ns ++ "_battery_voltage ".toList ++ fv ++ "\n".toList
    ++ "# HELP ".toList ++ ns ++ "_battery_current Battery Current.\n".toList
    ++ "# TYPE ".toList ++ ns ++ "_battery_current gauge\n".toList
    ++ "# UNIT ".toList ++ ns ++ "_battery_current mA\n".toList
    ++ ns ++ "_battery_current ".toList ++ fc ++ "\n".toList

/-- The exposition document as the specification writes it: as `document`, but
with the third line `# UNIT <ns>_info` ended right after `_info`. -/
def specified_document (ns v b sn fv fc : CString) : CString :=
  "# HELP ".toList ++ ns ++ "_info Metadata about the device.\n".toList
    ++ "# TYPE ".toList ++ ns ++ "_info gauge\n".toList
    ++ "# UNIT ".toList ++ ns ++ "_info\n".toList
    ++ ns ++ "_info\x7bversion=\"".toList ++ v ++ "\",board=\"".toList ++ b
      ++ "\",sensor=\"".toList ++ sn ++ "\"\x7d 1\n".toList
    ++ "# HELP ".toList ++ ns ++ "_battery_voltage Battery Voltage.\n".toList
    ++ "# TYPE ".toList ++ ns ++ "_battery_voltage gauge\n".toList
    ++ "# UNIT ".toList ++ ns ++ "_battery_voltage V\n".toList
    ++ ns ++ "_battery_voltage ".toList ++ fv ++ "\n".toList
    ++ "# HELP ".toList ++ ns ++ "_battery_current Battery Current.\n".toList
    ++ "# TYPE ".toList ++ ns ++ "_battery_current gauge\n".toList
    ++ "# UNIT ".toList ++ ns ++ "_battery_current mA\n".toList
    ++ ns ++ "_battery_current ".toList ++ fc ++ "\n".toList

/-! ## Concrete data for the scenarios -/

/-- The readings of a list, in order, followed by 0.0 for ever. -/
def stream (l : List F32) : Nat → F32 := fun k => l.getD k F32.zero

/-- The configuration of the scenarios: three tries, namespace `batt`. -/
def cfg_example : Config :=
  { READ_TRY_COUNT := 3, DEBUG_MODE := 0, PROM_NAMESPACE := "batt".toList,
    HTTP_METRICS_ENDPOINT := "/metrics".toList, VERSION := "1.2.0".toList,
    BOARD_NAME := "esp_x".toList, SENSOR_NAME := "ina219".toList }

/-- As `cfg_example`, with debug logging switched on. -/
def cfg_debug : Config := { cfg_example with DEBUG_MODE := 1 }

/-- As `cfg_example`, with a retry bound of zero. -/
def cfg_zero : Config := { cfg_example with READ_TRY_COUNT := 0 }

/-- As `cfg_example`, with a namespace that holds an escaped percent sign. -/
def cfg_percent : Config := { cfg_example with PROM_NAMESPACE := "b%%".toList }

/-- As `cfg_example`, with a namespace that is itself a `%s` conversion. -/
def cfg_conversion : Config := { cfg_example with PROM_NAMESPACE := "%s".toList }

/-- As `cfg_example`, with a metrics path of 200 bytes. -/
def cfg_long_path : Config :=
  { cfg_example with HTTP_METRICS_ENDPOINT := '/' :: List.replicate 199 'm' }

/-- As `cfg_example`, with a version string of 2000 bytes. -/
def cfg_long : Config := { cfg_example with VERSION := List.replicate 2000 'v' }

/-- The `%f` renderings of the two values of the scenario; any other value is
rendered as `?`. -/
def fmt_example (x : F32) : CString :=
  if x = F32.v7_4 then "7.400000".toList
  else if x = F32.v123 then "123.000000".toList
  else "?".toList

/-- A board that returns the given voltage and current readings, with a clock
that starts at 1000 ms and advances by one per call. -/
def board_example (voltage current : List F32) : Board :=
  { getBusVoltage_V := stream voltage, getCurrent_mA := stream current,
    millis := fun k => 1000 + k, fmt_f := fmt_example }

/-- A GET request for `/metrics` from 10.0.0.2:5555. -/
def req_example : Request :=
  { remoteIP := "10.0.0.2".toList, remotePort := 5555, method := HTTPMethod.HTTP_GET,
    uri := "/metrics".toList }

/-- A GET request whose path has 200 bytes. -/
def req_long : Request :=
  { req_example with uri := '/' :: List.replicate 199 'a' }

/-! ## Basic facts about the state operations -/

section Frame

variable (cfg : Config) (board : Board)

@[simp] theorem log_busvoltage (m : CString) (l : LogLevel) (s : State) :
    (log cfg board m l s).busvoltage = s.busvoltage := by
  unfold log; split <;> rfl

@[simp] theorem log_current_mA (m : CString) (l : LogLevel) (s : State) :
    (log cfg board m l s).current_mA = s.current_mA := by
  unfold log; split <;> rfl

@[simp] theorem log_previous_read_time (m : CString) (l : LogLevel) (s : State) :
    (log cfg board m l s).previous_read_time = s.previous_read_time := by
  unfold log; split <;> rfl

@[simp] theorem log_voltage_calls (m : CString) (l : LogLevel) (s : State) :
    (log cfg board m l s).voltage_calls = s.voltage_calls := by
  unfold log; split <;> rfl

@[simp] theorem log_current_calls (m : CString) (l : LogLevel) (s : State) :
    (log cfg board m l s).current_calls = s.current_calls := by
  unfold log; split <;> rfl

@[simp] theorem log_load (m : CString) (l : LogLevel) (s : State) (p : FloatVar) :
    (log cfg board m l s).load p = s.load p := by
  cases p <;> simp [State.load]

@[simp] theorem log_calls (m : CString) (l : LogLevel) (s : State) (ch : Channel) :
    ch.calls (log cfg board m l s) = ch.calls s := by
  cases ch <;> simp [Channel.calls]

/-- A log call appends nothing or one record of its own level and message. -/
theorem log_trace (m : CString) (l : LogLevel) (s : State) :
    (log cfg board m l s).trace = s.trace ∨
      (log cfg board m l s).trace
        = s.trace ++ [Effect.println ⟨board.millis s.millis_calls % 2 ^ 32, l, m⟩] := by
  unfold log; split
  · exact Or.inl rfl
  · exact Or.inr rfl

/-- A log call above DEBUG level always appends its record. -/
theorem log_trace_of_ne_debug (m : CString) (l : LogLevel) (s : State)
    (hl : l ≠ LogLevel.DEBUG) :
    (log cfg board m l s).trace
      = s.trace ++ [Effect.println ⟨board.millis s.millis_calls % 2 ^ 32, l, m⟩] := by
  unfold log
  rw [if_neg (fun h => hl h.2)]
  rfl

end Frame

/-! ## The retry loop -/

section Loop

variable (cfg : Config) (board : Board)

theorem responses_append (a b : List Effect) : responses (a ++ b) = responses a ++ responses b := by
  simp [responses, List.filterMap_append]

theorem records_append (l : LogLevel) (a b : List Effect) :
    records l (a ++ b) = records l a ++ records l b := by
  simp [records, List.filterMap_append]

theorem sensor_reads_append (a b : List Effect) :
    sensor_reads (a ++ b) = sensor_reads a ++ sensor_reads b := by
  simp [sensor_reads, List.filterMap_append]

/-- The flag, the stored value and the call count after the loop are those of
`scan`; the other channel and the timestamp are untouched. -/
theorem read_sensor_loop_scan (ch : Channel) : ∀ (m : Nat) (s : State),
    (read_sensor_loop cfg board (ch.function board) ch.value m s).1
        = (scan (ch.readings board) m (ch.calls s) (s.load ch.value)).1
      ∧ (read_sensor_loop cfg board (ch.function board) ch.value m s).2.load ch.value
        = (scan (ch.readings board) m (ch.calls s) (s.load ch.value)).2.1
      ∧ ch.calls (read_sensor_loop cfg board (ch.function board) ch.value m s).2
        = (scan (ch.readings board) m (ch.calls s) (s.load ch.value)).2.2
      ∧ (read_sensor_loop cfg board (ch.function board) ch.value m s).2.load ch.other.value
        = s.load ch.other.value
      ∧ ch.other.calls (read_sensor_loop cfg board (ch.function board) ch.value m s).2
        = ch.other.calls s
      ∧ (read_sensor_loop cfg board (ch.function board) ch.value m s).2.previous_read_time
        = s.previous_read_time := by
  intro m
  induction m with
  | zero => intro s; simp [read_sensor_loop, scan]
  | succ m ih =>
    intro s
    cases ch with
    | voltage =>
      simp only [read_sensor_loop, scan, Channel.function, Channel.value, Channel.calls,
        Channel.readings, Channel.other, getBusVoltage_V, State.store, State.load]
      split
      · simp
      · have h := ih (log cfg board "Failed to read sensor.".toList LogLevel.DEBUG
          { s with voltage_calls := s.voltage_calls + 1,
                   trace := s.trace ++ [Effect.getBusVoltage_V (board.getBusVoltage_V s.voltage_calls)],
                   busvoltage := board.getBusVoltage_V s.voltage_calls })
        simpa [Channel.function, Channel.value, Channel.calls, Channel.readings,
          Channel.other, State.load] using h
    | current =>
      simp only [read_sensor_loop, scan, Channel.function, Channel.value, Channel.calls,
        Channel.readings, Channel.other, getCurrent_mA, State.store, State.load]
      split
      · simp
      · have h := ih (log cfg board "Failed to read sensor.".toList LogLevel.DEBUG
          { s with current_calls := s.current_calls + 1,
                   trace := s.trace ++ [Effect.getCurrent_mA (board.getCurrent_mA s.current_calls)],
                   current_mA := board.getCurrent_mA s.current_calls })
        simpa [Channel.function, Channel.value, Channel.calls, Channel.readings,
          Channel.other, State.load] using h

/-- The loop only appends effects, and among them there is no response and no
record above DEBUG level. -/
theorem read_sensor_loop_trace (ch : Channel) : ∀ (m : Nat) (s : State),
    ∃ new, (read_sensor_loop cfg board (ch.function board) ch.value m s).2.trace
          = s.trace ++ new
      ∧ responses new = [] ∧ records LogLevel.INFO new = []
      ∧ records LogLevel.ERROR new = [] := by
  intro m
  induction m with
  | zero => intro s; exact ⟨[], by simp [read_sensor_loop, responses, records]⟩
  | succ m ih =>
    intro s
    cases ch with
    | voltage =>
      simp only [read_sensor_loop, Channel.function, Channel.value, getBusVoltage_V,
        State.store, State.load]
      split
      · exact ⟨[Effect.getBusVoltage_V (board.getBusVoltage_V s.voltage_calls)],
          by simp [responses, records]⟩
      · obtain ⟨new, h, h1, h2, h3⟩ := ih (log cfg board "Failed to read sensor.".toList
          LogLevel.DEBUG
          { s with voltage_calls := s.voltage_calls + 1,
                   trace := s.trace ++ [Effect.getBusVoltage_V (board.getBusVoltage_V s.voltage_calls)],
                   busvoltage := board.getBusVoltage_V s.voltage_calls })
        simp only [Channel.function, Channel.value] at h
        rw [h]
        rcases log_trace cfg board "Failed to read sensor.".toList LogLevel.DEBUG
          { s with voltage_calls := s.voltage_calls + 1,
                   trace := s.trace ++ [Effect.getBusVoltage_V (board.getBusVoltage_V s.voltage_calls)],
                   busvoltage := board.getBusVoltage_V s.voltage_calls } with hl | hl
        · rw [hl]
          refine ⟨Effect.getBusVoltage_V (board.getBusVoltage_V s.voltage_calls) :: new,
            by simp, ?_, ?_, ?_⟩
          · simpa [responses] using h1
          · simpa [records] using h2
          · simpa [records] using h3
        · rw [hl]
          refine ⟨Effect.getBusVoltage_V (board.getBusVoltage_V s.voltage_calls)
            :: Effect.println ⟨board.millis s.millis_calls % 2 ^ 32, LogLevel.DEBUG,
                "Failed to read sensor.".toList⟩ :: new, by simp, ?_, ?_, ?_⟩
          · simpa [responses] using h1
          · simpa [records] using h2
          · simpa [records] using h3
    | current =>
      simp only [read_sensor_loop, Channel.function, Channel.value, getCurrent_mA,
        State.store, State.load]
      split
      · exact ⟨[Effect.getCurrent_mA (board.getCurrent_mA s.current_calls)],
          by simp [responses, records]⟩
      · obtain ⟨new, h, h1, h2, h3⟩ := ih (log cfg board "Failed to read sensor.".toList
          LogLevel.DEBUG
          { s with current_calls := s.current_calls + 1,
                   trace := s.trace ++ [Effect.getCurrent_mA (board.getCurrent_mA s.current_calls)],
                   current_mA := board.getCurrent_mA s.current_calls })
        simp only [Channel.function, Channel.value] at h
        rw [h]
        rcases log_trace cfg board "Failed to read sensor.".toList LogLevel.DEBUG
          { s with current_calls := s.current_calls + 1,
                   trace := s.trace ++ [Effect.getCurrent_mA (board.getCurrent_mA s.current_calls)],
                   current_mA := board.getCurrent_mA s.current_calls } with hl | hl
        · rw [hl]
          refine ⟨Effect.getCurrent_mA (board.getCurrent_mA s.current_calls) :: new,
            by simp, ?_, ?_, ?_⟩
          · simpa [responses] using h1
          · simpa [records] using h2
          · simpa [records] using h3
        · rw [hl]
          refine ⟨Effect.getCurrent_mA (board.getCurrent_mA s.current_calls)
            :: Effect.println ⟨board.millis s.millis_calls % 2 ^ 32, LogLevel.DEBUG,
                "Failed to read sensor.".toList⟩ :: new, by simp, ?_, ?_, ?_⟩
          · simpa [responses] using h1
          · simpa [records] using h2
          · simpa [records] using h3

end Loop

/-! ## Properties of `scan` -/

section Scan

variable (r : Nat → F32)

/-- With the first reading that is not NaN at offset `k < m`, `scan` succeeds
with that reading after `k + 1` attempts. -/
theorem scan_first : ∀ (m i k : Nat) (v : F32), k < m →
    (∀ j, j < k → isnan (r (i + j)) = true) → isnan (r (i + k)) = false →
    scan r m i v = (true, r (i + k), i + k + 1) := by
  intro m
  induction m with
  | zero => intro i k v hk; omega
  | succ m ih =>
    intro i k v hk hnan hok
    cases k with
    | zero =>
      have : isnan (r i) = false := by simpa using hok
      simp [scan, this]
    | succ k =>
      have h0 : isnan (r i) = true := by simpa using hnan 0 (by omega)
      have h := ih (i + 1) k (r i) (by omega)
        (fun j hj => by
          have := hnan (j + 1) (by omega)
          rwa [show i + (j + 1) = i + 1 + j by omega] at this)
        (by rwa [show i + (k + 1) = i + 1 + k by omega] at hok)
      simp only [scan, h0, Bool.not_true, Bool.false_eq_true, if_false]
      rw [h, show i + 1 + k = i + (k + 1) by omega]

/-- With `m` NaN readings in a row, `scan` fails after exactly `m` attempts. -/
theorem scan_all_nan : ∀ (m i : Nat) (v : F32),
    (∀ j, j < m → isnan (r (i + j)) = true) →
    (scan r m i v).1 = false ∧ (scan r m i v).2.2 = i + m
      ∧ (scan r m i v).2.1 = (if m = 0 then v else r (i + m - 1)) := by
  intro m
  induction m with
  | zero => intro i v _; simp [scan]
  | succ m ih =>
    intro i v hnan
    have h0 : isnan (r i) = true := by simpa using hnan 0 (by omega)
    have h := ih (i + 1) (r i) (fun j hj => by
      have := hnan (j + 1) (by omega)
      rwa [show i + (j + 1) = i + 1 + j by omega] at this)
    simp only [scan, h0, Bool.not_true, Bool.false_eq_true, if_false]
    refine ⟨h.1, by rw [h.2.1]; omega, ?_⟩
    rw [h.2.2]
    by_cases hm : m = 0
    · subst hm; simp
    · rw [if_neg hm, if_neg (by omega)]
      congr 1
      omega

/-- Either some reading among the first `m` is not NaN, and then there is a
first one, or all of them are NaN. -/
theorem first_non_nan_or_all_nan (m i : Nat) :
    (∃ k, k < m ∧ (∀ j, j < k → isnan (r (i + j)) = true) ∧ isnan (r (i + k)) = false)
      ∨ (∀ j, j < m → isnan (r (i + j)) = true) := by
  induction m with
  | zero => right; intro j hj; omega
  | succ m ih =>
    rcases ih with ⟨k, hk, h1, h2⟩ | hall
    · exact Or.inl ⟨k, by omega, h1, h2⟩
    · by_cases hm : isnan (r (i + m)) = true
      · right
        intro j hj
        by_cases hjm : j = m
        · subst hjm; exact hm
        · exact hall j (by omega)
      · left
        exact ⟨m, by omega, hall, by simpa using hm⟩

/-- After at least one attempt the flag says whether the stored value is a number. -/
theorem scan_flag_iff (m i : Nat) (v : F32) (hm : 0 < m) :
    (scan r m i v).1 = !isnan (scan r m i v).2.1 := by
  rcases first_non_nan_or_all_nan r m i with ⟨k, hk, h1, h2⟩ | hall
  · rw [scan_first r m i k v hk h1 h2]
    simp [h2]
  · obtain ⟨hf, _, hv⟩ := scan_all_nan r m i v hall
    rw [hf, hv, if_neg (by omega)]
    have := hall (m - 1) (by omega)
    rw [show i + (m - 1) = i + m - 1 by omega] at this
    simp [this]

/-- The number of attempts is at least one and at most `m`. -/
theorem scan_calls_bounds (m i : Nat) (v : F32) (hm : 0 < m) :
    i + 1 ≤ (scan r m i v).2.2 ∧ (scan r m i v).2.2 ≤ i + m := by
  rcases first_non_nan_or_all_nan r m i with ⟨k, hk, h1, h2⟩ | hall
  · rw [scan_first r m i k v hk h1 h2]
    simp only
    omega
  · obtain ⟨_, hc, _⟩ := scan_all_nan r m i v hall
    rw [hc]
    omega

end Scan

/-! ## The channel readers and `read_sensors` -/

section Readers

variable (cfg : Config) (board : Board)

/-- The call of `read_sensor` made by a channel reader, after its DEBUG
announcement `msg`, described from the state `s` in which the reader starts. -/
theorem read_sensor_after_log (ch : Channel) (msg : CString) (s : State) :
    (read_sensor cfg board (ch.function board) ch.value
        (log cfg board msg LogLevel.DEBUG s)).1
        = (scan (ch.readings board) cfg.READ_TRY_COUNT.toNat (ch.calls s) (s.load ch.value)).1
      ∧ (read_sensor cfg board (ch.function board) ch.value
          (log cfg board msg LogLevel.DEBUG s)).2.load ch.value
        = (scan (ch.readings board) cfg.READ_TRY_COUNT.toNat (ch.calls s) (s.load ch.value)).2.1
      ∧ ch.calls (read_sensor cfg board (ch.function board) ch.value
          (log cfg board msg LogLevel.DEBUG s)).2
        = (scan (ch.readings board) cfg.READ_TRY_COUNT.toNat (ch.calls s) (s.load ch.value)).2.2
      ∧ (read_sensor cfg board (ch.function board) ch.value
          (log cfg board msg LogLevel.DEBUG s)).2.load ch.other.value = s.load ch.other.value
      ∧ ch.other.calls (read_sensor cfg board (ch.function board) ch.value
          (log cfg board msg LogLevel.DEBUG s)).2 = ch.other.calls s
      ∧ (read_sensor cfg board (ch.function board) ch.value
          (log cfg board msg LogLevel.DEBUG s)).2.previous_read_time = s.previous_read_time
      ∧ ∃ new, (read_sensor cfg board (ch.function board) ch.value
          (log cfg board msg LogLevel.DEBUG s)).2.trace = s.trace ++ new
        ∧ responses new = [] ∧ records LogLevel.INFO new = []
        ∧ records LogLevel.ERROR new = [] := by
  have h := read_sensor_loop_scan cfg board ch cfg.READ_TRY_COUNT.toNat
    (log cfg board msg LogLevel.DEBUG s)
  simp only [log_calls, log_load, log_previous_read_time] at h
  obtain ⟨h1, h2, h3, h4, h5, h6⟩ := h
  refine ⟨h1, h2, h3, h4, h5, h6, ?_⟩
  obtain ⟨new, hn, r1, r2, r3⟩ := read_sensor_loop_trace cfg board ch
    cfg.READ_TRY_COUNT.toNat (log cfg board msg LogLevel.DEBUG s)
  unfold read_sensor
  rw [hn]
  rcases log_trace cfg board msg LogLevel.DEBUG s with hl | hl
  · rw [hl]; exact ⟨new, rfl, r1, r2, r3⟩
  · rw [hl]
    refine ⟨Effect.println ⟨board.millis s.millis_calls % 2 ^ 32, LogLevel.DEBUG, msg⟩ :: new,
      by simp, ?_, ?_, ?_⟩
    · simpa [responses] using r1
    · simpa [records] using r2
    · simpa [records] using r3

/-- What `read_voltage_sensor` does, in terms of `scan`. -/
theorem read_voltage_sensor_spec (s : State) :
    voltage_result cfg board s
        = (scan board.getBusVoltage_V cfg.READ_TRY_COUNT.toNat s.voltage_calls s.busvoltage).1
      ∧ (read_voltage_sensor cfg board s).busvoltage
        = (scan board.getBusVoltage_V cfg.READ_TRY_COUNT.toNat s.voltage_calls s.busvoltage).2.1
      ∧ (read_voltage_sensor cfg board s).voltage_calls
        = (scan board.getBusVoltage_V cfg.READ_TRY_COUNT.toNat s.voltage_calls s.busvoltage).2.2
      ∧ (read_voltage_sensor cfg board s).current_mA = s.current_mA
      ∧ (read_voltage_sensor cfg board s).current_calls = s.current_calls
      ∧ (read_voltage_sensor cfg board s).previous_read_time = s.previous_read_time
      ∧ ∃ new, (read_voltage_sensor cfg board s).trace = s.trace ++ new
        ∧ responses new = [] ∧ records LogLevel.INFO new = []
        ∧ records LogLevel.ERROR new
          = if voltage_result cfg board s then []
            else ["Failed to read voltage sensor.".toList] := by
  obtain ⟨h1, h2, h3, h4, h5, h6, new, hn, r1, r2, r3⟩ :=
    read_sensor_after_log cfg board Channel.voltage "Reading voltage sensor ...".toList s
  simp only [Channel.function, Channel.value, Channel.calls, Channel.readings, Channel.other,
    State.load] at h1 h2 h3 h4 h5 h6 hn
  refine ⟨h1, ?_⟩
  unfold read_voltage_sensor voltage_result
  simp only
  cases hres : (read_sensor cfg board (getBusVoltage_V board) FloatVar.busvoltage
      (log cfg board "Reading voltage sensor ...".toList LogLevel.DEBUG s)).1
  · simp only [Bool.not_false, if_true, log_busvoltage, log_voltage_calls, log_current_mA,
      log_current_calls, log_previous_read_time]
    refine ⟨h2, h3, h4, h5, h6, ?_⟩
    rw [log_trace_of_ne_debug cfg board _ _ _ (by decide), hn]
    refine ⟨new ++ [_], List.append_assoc _ _ _, ?_, ?_, ?_⟩
    · rw [responses_append, r1]; rfl
    · rw [records_append, r2]; rfl
    · rw [records_append, r3]; rfl
  · simp only [Bool.not_true, Bool.false_eq_true, if_false]
    exact ⟨h2, h3, h4, h5, h6, new, hn, r1, r2, by simpa using r3⟩

/-- What `read_current_sensor` does, in terms of `scan`. -/
theorem read_current_sensor_spec (s : State) :
    current_result cfg board s
        = (scan board.getCurrent_mA cfg.READ_TRY_COUNT.toNat s.current_calls s.current_mA).1
      ∧ (read_current_sensor cfg board s).current_mA
        = (scan board.getCurrent_mA cfg.READ_TRY_COUNT.toNat s.current_calls s.current_mA).2.1
      ∧ (read_current_sensor cfg board s).current_calls
        = (scan board.getCurrent_mA cfg.READ_TRY_COUNT.toNat s.current_calls s.current_mA).2.2
      ∧ (read_current_sensor cfg board s).busvoltage = s.busvoltage
      ∧ (read_current_sensor cfg board s).voltage_calls = s.voltage_calls
      ∧ (read_current_sensor cfg board s).previous_read_time = s.previous_read_time
      ∧ ∃ new, (read_current_sensor cfg board s).trace = s.trace ++ new
        ∧ responses new = [] ∧ records LogLevel.INFO new = []
        ∧ records LogLevel.ERROR new
          = if current_result cfg board s then []
            else ["Failed to read current sensor.".toList] := by
  obtain ⟨h1, h2, h3, h4, h5, h6, new, hn, r1, r2, r3⟩ :=
    read_sensor_after_log cfg board Channel.current "Reading current sensor ...".toList s
  simp only [Channel.function, Channel.value, Channel.calls, Channel.readings, Channel.other,
    State.load] at h1 h2 h3 h4 h5 h6 hn
  refine ⟨h1, ?_⟩
  unfold read_current_sensor current_result
  simp only
  cases hres : (read_sensor cfg board (getCurrent_mA board) FloatVar.current_mA
      (log cfg board "Reading current sensor ...".toList LogLevel.DEBUG s)).1
  · simp only [Bool.not_false, if_true, log_busvoltage, log_voltage_calls, log_current_mA,
      log_current_calls, log_previous_read_time]
    refine ⟨h2, h3, h4, h5, h6, ?_⟩
    rw [log_trace_of_ne_debug cfg board _ _ _ (by decide), hn]
    refine ⟨new ++ [_], List.append_assoc _ _ _, ?_, ?_, ?_⟩
    · rw [responses_append, r1]; rfl
    · rw [records_append, r2]; rfl
    · rw [records_append, r3]; rfl
  · simp only [Bool.not_true, Bool.false_eq_true, if_false]
    exact ⟨h2, h3, h4, h5, h6, new, hn, r1, r2, by simpa using r3⟩

/-- `read_sensors` is the clock read followed by the two readers. -/
theorem read_sensors_eq (force : Bool) (s : State) :
    read_sensors cfg board force s
      = read_current_sensor cfg board
          (read_voltage_sensor cfg board (read_sensors_entry board s)) := rfl

@[simp] theorem read_sensors_entry_busvoltage (s : State) :
    (read_sensors_entry board s).busvoltage = s.busvoltage := rfl

@[simp] theorem read_sensors_entry_current_mA (s : State) :
    (read_sensors_entry board s).current_mA = s.current_mA := rfl

@[simp] theorem read_sensors_entry_voltage_calls (s : State) :
    (read_sensors_entry board s).voltage_calls = s.voltage_calls := rfl

@[simp] theorem read_sensors_entry_current_calls (s : State) :
    (read_sensors_entry board s).current_calls = s.current_calls := rfl

@[simp] theorem read_sensors_entry_trace (s : State) :
    (read_sensors_entry board s).trace = s.trace := rfl

@[simp] theorem read_sensors_entry_previous_read_time (s : State) :
    (read_sensors_entry board s).previous_read_time = board.millis s.millis_calls % 2 ^ 32 := rfl

/-- What `read_sensors` does, in terms of `scan` on the two channels. -/
theorem read_sensors_spec (force : Bool) (s : State) :
    voltage_result cfg board (read_sensors_entry board s)
        = (scan board.getBusVoltage_V cfg.READ_TRY_COUNT.toNat s.voltage_calls s.busvoltage).1
      ∧ current_result cfg board (read_voltage_sensor cfg board (read_sensors_entry board s))
        = (scan board.getCurrent_mA cfg.READ_TRY_COUNT.toNat s.current_calls s.current_mA).1
      ∧ (read_sensors cfg board force s).busvoltage
        = (scan board.getBusVoltage_V cfg.READ_TRY_COUNT.toNat s.voltage_calls s.busvoltage).2.1
      ∧ (read_sensors cfg board force s).voltage_calls
        = (scan board.getBusVoltage_V cfg.READ_TRY_COUNT.toNat s.voltage_calls s.busvoltage).2.2
      ∧ (read_sensors cfg board force s).current_mA
        = (scan board.getCurrent_mA cfg.READ_TRY_COUNT.toNat s.current_calls s.current_mA).2.1
      ∧ (read_sensors cfg board force s).current_calls
        = (scan board.getCurrent_mA cfg.READ_TRY_COUNT.toNat s.current_calls s.current_mA).2.2
      ∧ (read_sensors cfg board force s).previous_read_time
        = board.millis s.millis_calls % 2 ^ 32
      ∧ ∃ new, (read_sensors cfg board force s).trace = s.trace ++ new
        ∧ responses new = [] ∧ records LogLevel.INFO new = []
        ∧ records LogLevel.ERROR new
          = (if voltage_result cfg board (read_sensors_entry board s) then []
              else ["Failed to read voltage sensor.".toList])
            ++ (if current_result cfg board
                  (read_voltage_sensor cfg board (read_sensors_entry board s)) then []
                else ["Failed to read current sensor.".toList]) := by
  obtain ⟨v1, v2, v3, v4, v5, v6, newV, hV, rV1, rV2, rV3⟩ :=
    read_voltage_sensor_spec cfg board (read_sensors_entry board s)
  obtain ⟨c1, c2, c3, c4, c5, c6, newC, hC, rC1, rC2, rC3⟩ :=
    read_current_sensor_spec cfg board
      (read_voltage_sensor cfg board (read_sensors_entry board s))
  rw [read_sensors_eq]
  simp only [read_sensors_entry_busvoltage, read_sensors_entry_current_mA,
    read_sensors_entry_voltage_calls, read_sensors_entry_current_calls,
    read_sensors_entry_trace, read_sensors_entry_previous_read_time] at v1 v2 v3 v4 v5 v6 hV
  rw [v4, v5] at c1 c2 c3
  refine ⟨v1, c1, by rw [c4, v2], by rw [c5, v3], c2, c3, by rw [c6, v6], ?_⟩
  refine ⟨newV ++ newC, by rw [hC, hV, List.append_assoc], ?_, ?_, ?_⟩
  · rw [responses_append, rV1, rC1]; rfl
  · rw [records_append, rV2, rC2]; rfl
  · rw [records_append, rV3, rC3]

/-- `log_request` appends exactly one INFO record and changes nothing else
that the handlers look at. -/
theorem log_request_spec (req : Request) (s : State) :
    (log_request cfg board req s).busvoltage = s.busvoltage
      ∧ (log_request cfg board req s).current_mA = s.current_mA
      ∧ (log_request cfg board req s).previous_read_time = s.previous_read_time
      ∧ (log_request cfg board req s).voltage_calls = s.voltage_calls
      ∧ (log_request cfg board req s).current_calls = s.current_calls
      ∧ (log_request cfg board req s).trace
        = s.trace ++ [Effect.println ⟨board.millis s.millis_calls % 2 ^ 32, LogLevel.INFO,
            snprintf 128 (request_text req)⟩] := by
  unfold log_request
  simp only [log_busvoltage, log_current_mA, log_previous_read_time, log_voltage_calls,
    log_current_calls, true_and]
  exact log_trace_of_ne_debug cfg board _ _ _ (by decide)

end Readers

/-! ## printf over the metrics template -/

section Format

variable (f : F32 → CString)

theorem format_cons_plain (c : Char) (l : CString) (args : List Arg) (hc : c ≠ '%') :
    format f (c :: l) args = (format f l args).map (fun out => c :: out) := by
  cases l with
  | nil => simp [format, hc]
  | cons d rest => simp [format, hc]

/-- A stretch of the format string without `%` is copied. -/
theorem format_plain : ∀ (p rest : CString) (args : List Arg), '%' ∉ p →
    format f (p ++ rest) args = (format f rest args).map (fun out => p ++ out) := by
  intro p
  induction p with
  | nil => intro rest args _; simp
  | cons c p ih =>
    intro rest args h
    have hc : c ≠ '%' := fun e => h (by simp [e])
    have hp : '%' ∉ p := fun e => h (by simp [e])
    rw [List.cons_append, format_cons_plain f c _ _ hc, ih rest args hp]
    cases format f rest args <;> simp

theorem format_plain_nil (p : CString) (args : List Arg) (h : '%' ∉ p) :
    format f p args = some p := by
  have := format_plain f p [] args h
  simpa [format] using this

theorem format_s (v : CString) (rest : CString) (args : List Arg) :
    format f ('%' :: 's' :: rest) (Arg.str v :: args)
      = (format f rest args).map (fun out => v ++ out) := by
  simp [format]

theorem format_f (x : F32) (rest : CString) (args : List Arg) :
    format f ('%' :: 'f' :: rest) (Arg.flt x :: args)
      = (format f rest args).map (fun out => f x ++ out) := by
  simp [format]

theorem info_line_split :
    "_info\x7bversion=\"%s\",board=\"%s\",sensor=\"%s\"\x7d 1\n".toList
      = "_info\x7bversion=\"".toList ++ ('%' :: 's' :: ("\",board=\"".toList
          ++ ('%' :: 's' :: ("\",sensor=\"".toList
            ++ ('%' :: 's' :: "\"\x7d 1\n".toList))))) := by
  decide

theorem voltage_line_split :
    "_battery_voltage %f\n".toList
      = "_battery_voltage ".toList ++ ('%' :: 'f' :: "\n".toList) := by
  decide

theorem current_line_split :
    "_battery_current %f\n".toList
      = "_battery_current ".toList ++ ('%' :: 'f' :: "\n".toList) := by
  decide

end Format

/-- With a namespace free of `%`, the template has exactly five conversions
and renders to `document`. -/
theorem render_eq (cfg : Config) (board : Board) (v c : F32)
    (hns : '%' ∉ cfg.PROM_NAMESPACE) :
    render cfg board v c = some (document cfg.PROM_NAMESPACE cfg.VERSION cfg.BOARD_NAME
      cfg.SENSOR_NAME (board.fmt_f v) (board.fmt_f c)) := by
  unfold render response_template
  rw [info_line_split, voltage_line_split, current_line_split]
  simp only [List.append_assoc, List.cons_append]
  simp (disch := first | exact hns | decide) only [format_plain, format_s, format_f,
    format_plain_nil, Option.map_some']
  simp only [document, List.append_assoc]

/-! ## The metrics handler -/

section Metrics

variable (cfg : Config) (board : Board)

/-- The body of `handle_http_metrics` with its local states named. -/
theorem handle_http_metrics_unfold (req : Request) (s : State) :
    handle_http_metrics cfg board req s
      = if (isnan (metrics_state cfg board req s).busvoltage
            || isnan (metrics_state cfg board req s).current_mA) = true then
          some (send 500 text_plain "Sensor error.".toList (metrics_state cfg board req s))
        else
          (render cfg board (metrics_state cfg board req s).busvoltage
              (metrics_state cfg board req s).current_mA).map
            (fun full =>
              send 200 text_plain (snprintf 1024 full) (metrics_state cfg board req s)) := by
  unfold handle_http_metrics metrics_state
  dsimp only
  generalize read_sensors cfg board false (log_request cfg board req s) = m
  generalize render cfg board m.busvoltage m.current_mA = doc
  cases doc <;> rfl

/-- The failure branch of `handle_http_metrics`. -/
theorem handle_http_metrics_of_nan (req : Request) (s : State)
    (h : (isnan (metrics_state cfg board req s).busvoltage
      || isnan (metrics_state cfg board req s).current_mA) = true) :
    handle_http_metrics cfg board req s
      = some (send 500 text_plain "Sensor error.".toList (metrics_state cfg board req s)) := by
  rw [handle_http_metrics_unfold, if_pos h]

/-- The success branch of `handle_http_metrics`. -/
theorem handle_http_metrics_of_not_nan (req : Request) (s : State)
    (h : (isnan (metrics_state cfg board req s).busvoltage
      || isnan (metrics_state cfg board req s).current_mA) = false) :
    handle_http_metrics cfg board req s
      = (render cfg board (metrics_state cfg board req s).busvoltage
          (metrics_state cfg board req s).current_mA).map
        (fun full => send 200 text_plain (snprintf 1024 full) (metrics_state cfg board req s)) := by
  rw [handle_http_metrics_unfold, if_neg (by rw [h]; exact Bool.false_ne_true)]

/-- The state in which the metrics handler tests the globals, in terms of
`scan`, with the effects made up to that point. -/
theorem metrics_state_spec (req : Request) (s : State) :
    voltage_result cfg board (read_sensors_entry board (log_request cfg board req s))
        = (scan board.getBusVoltage_V cfg.READ_TRY_COUNT.toNat s.voltage_calls s.busvoltage).1
      ∧ current_result cfg board (read_voltage_sensor cfg board
          (read_sensors_entry board (log_request cfg board req s)))
        = (scan board.getCurrent_mA cfg.READ_TRY_COUNT.toNat s.current_calls s.current_mA).1
      ∧ (metrics_state cfg board req s).busvoltage
        = (scan board.getBusVoltage_V cfg.READ_TRY_COUNT.toNat s.voltage_calls s.busvoltage).2.1
      ∧ (metrics_state cfg board req s).voltage_calls
        = (scan board.getBusVoltage_V cfg.READ_TRY_COUNT.toNat s.voltage_calls s.busvoltage).2.2
      ∧ (metrics_state cfg board req s).current_mA
        = (scan board.getCurrent_mA cfg.READ_TRY_COUNT.toNat s.current_calls s.current_mA).2.1
      ∧ (metrics_state cfg board req s).current_calls
        = (scan board.getCurrent_mA cfg.READ_TRY_COUNT.toNat s.current_calls s.current_mA).2.2
      ∧ ∃ mid, (metrics_state cfg board req s).trace
          = s.trace ++ Effect.println ⟨board.millis s.millis_calls % 2 ^ 32, LogLevel.INFO,
              snprintf 128 (request_text req)⟩ :: mid
        ∧ responses mid = [] ∧ records LogLevel.INFO mid = []
        ∧ records LogLevel.ERROR mid
          = (if voltage_result cfg board
                (read_sensors_entry board (log_request cfg board req s)) then []
              else ["Failed to read voltage sensor.".toList])
            ++ (if current_result cfg board (read_voltage_sensor cfg board
                  (read_sensors_entry board (log_request cfg board req s))) then []
                else ["Failed to read current sensor.".toList]) := by
  obtain ⟨l1, l2, _, l4, l5, l6⟩ := log_request_spec cfg board req s
  obtain ⟨r1, r2, r3, r4, r5, r6, _, mid, hm, m1, m2, m3⟩ :=
    read_sensors_spec cfg board false (log_request cfg board req s)
  rw [l1, l4] at r1 r3 r4
  rw [l2, l5] at r2 r5 r6
  refine ⟨r1, r2, r3, r4, r5, r6, mid, ?_, m1, m2, m3⟩
  unfold metrics_state
  rw [hm, l6]
  simp

end Metrics

/-! ## Results on `read_sensor` -/

section ReadSensor

variable (cfg : Config) (board : Board)

/-- The outcome of `read_sensor` on a channel, from any state, in terms of `scan`. -/
theorem read_sensor_scan (ch : Channel) (s : State) :
    (read_sensor cfg board (ch.function board) ch.value s).1
        = (scan (ch.readings board) cfg.READ_TRY_COUNT.toNat (ch.calls s) (s.load ch.value)).1
      ∧ (read_sensor cfg board (ch.function board) ch.value s).2.load ch.value
        = (scan (ch.readings board) cfg.READ_TRY_COUNT.toNat (ch.calls s) (s.load ch.value)).2.1
      ∧ ch.calls (read_sensor cfg board (ch.function board) ch.value s).2
        = (scan (ch.readings board) cfg.READ_TRY_COUNT.toNat (ch.calls s)
            (s.load ch.value)).2.2 := by
  obtain ⟨h1, h2, h3, _⟩ := read_sensor_loop_scan cfg board ch cfg.READ_TRY_COUNT.toNat s
  exact ⟨h1, h2, h3⟩

/-- C10. `read_sensor` characterised by the NaN test, for either channel `ch`,
any retry bound and any readings; offsets count from the first reading of this
call, so offset `k` is position `k + 1`.
(1) If the first reading that is not NaN has offset `k` below `READ_TRY_COUNT`,
the call returns true, stores that reading and makes exactly `k + 1` reads.
(2) If every reading with offset below `READ_TRY_COUNT` is NaN, the call
returns false after exactly `max READ_TRY_COUNT 0` reads.
(3) For `READ_TRY_COUNT >= 1` the call returns true if and only if the value
stored afterwards is not NaN (so a failed call leaves NaN in the variable).
(4) For `READ_TRY_COUNT <= 0` the call returns false and leaves the whole state
unchanged (no read, no store).
(5) Flag and stored value can then disagree: with a bound of zero and the
initial value 0.0 the call returns false while the stored value is not NaN. -/
theorem read_sensor_exact (ch : Channel) (s : State) :
    (∀ k : Nat, (k : Int) < cfg.READ_TRY_COUNT →
        (∀ j, j < k → isnan (ch.readings board (ch.calls s + j)) = true) →
        isnan (ch.readings board (ch.calls s + k)) = false →
        (read_sensor cfg board (ch.function board) ch.value s).1 = true
          ∧ (read_sensor cfg board (ch.function board) ch.value s).2.load ch.value
            = ch.readings board (ch.calls s + k)
          ∧ ch.calls (read_sensor cfg board (ch.function board) ch.value s).2
            = ch.calls s + (k + 1))
      ∧ ((∀ j : Nat, (j : Int) < cfg.READ_TRY_COUNT →
            isnan (ch.readings board (ch.calls s + j)) = true) →
          (read_sensor cfg board (ch.function board) ch.value s).1 = false
            ∧ (ch.calls (read_sensor cfg board (ch.function board) ch.value s).2 : Int)
              = ch.calls s + max cfg.READ_TRY_COUNT 0)
      ∧ (1 ≤ cfg.READ_TRY_COUNT →
          ((read_sensor cfg board (ch.function board) ch.value s).1 = true
            ↔ isnan ((read_sensor cfg board (ch.function board) ch.value s).2.load ch.value)
              = false))
      ∧ (cfg.READ_TRY_COUNT ≤ 0 →
          (read_sensor cfg board (ch.function board) ch.value s).1 = false
            ∧ (read_sensor cfg board (ch.function board) ch.value s).2 = s)
      ∧ ((read_sensor cfg_zero (board_example [] []) (getBusVoltage_V (board_example [] []))
            FloatVar.busvoltage State.init).1 = false
          ∧ isnan (read_sensor cfg_zero (board_example [] [])
              (getBusVoltage_V (board_example [] [])) FloatVar.busvoltage
              State.init).2.busvoltage = false) := by
  obtain ⟨h1, h2, h3⟩ := read_sensor_scan cfg board ch s
  refine ⟨?_, ?_, ?_, ?_, by decide⟩
  · intro k hk hnan hok
    have hk2 : k < cfg.READ_TRY_COUNT.toNat := by omega
    rw [h1, h2, h3, scan_first _ _ _ k _ hk2 hnan hok]
    exact ⟨rfl, rfl, rfl⟩
  · intro hnan
    obtain ⟨a, b, _⟩ := scan_all_nan (ch.readings board) cfg.READ_TRY_COUNT.toNat (ch.calls s)
      (s.load ch.value) (fun j hj => hnan j (by omega))
    rw [h1, h3, a, b]
    refine ⟨rfl, ?_⟩
    push_cast
    rw [Int.toNat_eq_max]
  · intro hn
    rw [h1, h2, scan_flag_iff _ _ _ _ (by omega)]
    simp
  · intro hn
    have h0 : cfg.READ_TRY_COUNT.toNat = 0 := by omega
    unfold read_sensor
    rw [h0]
    exact ⟨rfl, rfl⟩

/-- C10, on the scenario: three tries and voltage readings NaN, NaN, 7.4 give
true, 7.4 and three reads; and with a bound of zero the state is unchanged. -/
theorem read_sensor_exact_witness :
    ((read_sensor cfg_example (board_example [F32.qnan, F32.qnan, F32.v7_4] [])
          (Channel.voltage.function (board_example [F32.qnan, F32.qnan, F32.v7_4] []))
          Channel.voltage.value State.init).1 = true
        ∧ (read_sensor cfg_example (board_example [F32.qnan, F32.qnan, F32.v7_4] [])
            (Channel.voltage.function (board_example [F32.qnan, F32.qnan, F32.v7_4] []))
            Channel.voltage.value State.init).2.load Channel.voltage.value
          = Channel.voltage.readings (board_example [F32.qnan, F32.qnan, F32.v7_4] [])
              (Channel.voltage.calls State.init + 2)
        ∧ Channel.voltage.calls (read_sensor cfg_example
            (board_example [F32.qnan, F32.qnan, F32.v7_4] [])
            (Channel.voltage.function (board_example [F32.qnan, F32.qnan, F32.v7_4] []))
            Channel.voltage.value State.init).2
          = Channel.voltage.calls State.init + (2 + 1))
      ∧ ((read_sensor cfg_zero (board_example [] [])
            (Channel.current.function (board_example [] []))
            Channel.current.value State.init).1 = false
          ∧ (read_sensor cfg_zero (board_example [] [])
              (Channel.current.function (board_example [] []))
              Channel.current.value State.init).2 = State.init) :=
  ⟨(read_sensor_exact cfg_example (board_example [F32.qnan, F32.qnan, F32.v7_4] [])
      Channel.voltage State.init).1 2 (by decide)
      (fun j hj => by
        have : j = 0 ∨ j = 1 := by omega
        rcases this with rfl | rfl <;> decide)
      (by decide),
    (read_sensor_exact cfg_zero (board_example [] []) Channel.current State.init).2.2.2.1
      (by decide)⟩

/-- C1 as stated fails: three tries, voltage readings +infinity, 7.4.  The
first finite reading is the second one (7.4), yet `read_sensor` returns true
with +infinity stored, after one read instead of two: an infinite reading is
not retried. -/
theorem read_sensor_accepts_infinity :
    isfinite ((board_example [F32.pinf, F32.v7_4] []).getBusVoltage_V 0) = false
      ∧ isfinite ((board_example [F32.pinf, F32.v7_4] []).getBusVoltage_V 1) = true
      ∧ (read_sensor cfg_example (board_example [F32.pinf, F32.v7_4] [])
          (getBusVoltage_V (board_example [F32.pinf, F32.v7_4] []))
          FloatVar.busvoltage State.init).1 = true
      ∧ (read_sensor cfg_example (board_example [F32.pinf, F32.v7_4] [])
          (getBusVoltage_V (board_example [F32.pinf, F32.v7_4] []))
          FloatVar.busvoltage State.init).2.busvoltage = F32.pinf
      ∧ (read_sensor cfg_example (board_example [F32.pinf, F32.v7_4] [])
          (getBusVoltage_V (board_example [F32.pinf, F32.v7_4] []))
          FloatVar.busvoltage State.init).2.busvoltage
        ≠ (board_example [F32.pinf, F32.v7_4] []).getBusVoltage_V 1
      ∧ (read_sensor cfg_example (board_example [F32.pinf, F32.v7_4] [])
          (getBusVoltage_V (board_example [F32.pinf, F32.v7_4] []))
          FloatVar.busvoltage State.init).2.voltage_calls = 1 := by
  decide

/-- C1, amended: a reading is invalid exactly when it is NaN.  For every
`READ_TRY_COUNT >= 1`, either channel `ch` and all readings of which at least
one of the first `READ_TRY_COUNT` is not NaN, there is a first such reading, at
offset `k` (position `k + 1`); `read_sensor` returns true, leaves that reading
in `*value` and has called the read function exactly `k + 1` times. -/
theorem read_sensor_first_non_nan (ch : Channel) (s : State)
    (hn : 1 ≤ cfg.READ_TRY_COUNT)
    (h : ∃ j : Nat, (j : Int) < cfg.READ_TRY_COUNT
      ∧ isnan (ch.readings board (ch.calls s + j)) = false) :
    ∃ k : Nat, (k : Int) < cfg.READ_TRY_COUNT
      ∧ (∀ j, j < k → isnan (ch.readings board (ch.calls s + j)) = true)
      ∧ isnan (ch.readings board (ch.calls s + k)) = false
      ∧ (read_sensor cfg board (ch.function board) ch.value s).1 = true
      ∧ (read_sensor cfg board (ch.function board) ch.value s).2.load ch.value
        = ch.readings board (ch.calls s + k)
      ∧ ch.calls (read_sensor cfg board (ch.function board) ch.value s).2
        = ch.calls s + (k + 1) := by
  obtain ⟨h1, h2, h3⟩ := read_sensor_scan cfg board ch s
  have hpos : 0 < cfg.READ_TRY_COUNT.toNat := by omega
  rcases first_non_nan_or_all_nan (ch.readings board) cfg.READ_TRY_COUNT.toNat (ch.calls s)
    with ⟨k, hk, hnan, hok⟩ | hall
  · refine ⟨k, by omega, hnan, hok, ?_⟩
    rw [h1, h2, h3, scan_first _ _ _ k _ hk hnan hok]
    exact ⟨rfl, rfl, rfl⟩
  · obtain ⟨j, hj, hjok⟩ := h
    have := hall j (by omega)
    rw [hjok] at this
    exact absurd this (by decide)

/-- C1, amended, on the scenario of the specification: three tries and voltage
readings NaN, NaN, 7.4 give true with 7.4 stored after exactly three reads. -/
theorem read_sensor_first_non_nan_witness :
    (read_sensor cfg_example (board_example [F32.qnan, F32.qnan, F32.v7_4] [])
        (getBusVoltage_V (board_example [F32.qnan, F32.qnan, F32.v7_4] []))
        FloatVar.busvoltage State.init).1 = true
      ∧ (read_sensor cfg_example (board_example [F32.qnan, F32.qnan, F32.v7_4] [])
          (getBusVoltage_V (board_example [F32.qnan, F32.qnan, F32.v7_4] []))
          FloatVar.busvoltage State.init).2.busvoltage = F32.v7_4
      ∧ (read_sensor cfg_example (board_example [F32.qnan, F32.qnan, F32.v7_4] [])
          (getBusVoltage_V (board_example [F32.qnan, F32.qnan, F32.v7_4] []))
          FloatVar.busvoltage State.init).2.voltage_calls = 3 := by
  obtain ⟨k, hk, hnan, hok, h1, h2, h3⟩ :=
    read_sensor_first_non_nan cfg_example (board_example [F32.qnan, F32.qnan, F32.v7_4] [])
      Channel.voltage State.init (by decide) ⟨2, by decide, by decide⟩
  have hk3 : k = 0 ∨ k = 1 ∨ k = 2 := by
    have : (k : Int) < 3 := hk
    omega
  rcases hk3 with rfl | rfl | rfl
  · exact absurd hok (by decide)
  · exact absurd hok (by decide)
  · exact ⟨h1, h2, h3⟩

/-- C2. For every `READ_TRY_COUNT >= 1` and either channel `ch`: if each of the
first `READ_TRY_COUNT` readings of `ch` in this cycle is NaN, then
(1) `read_sensor` on `ch`, from any state with the same number of earlier
reads, returns false after exactly `READ_TRY_COUNT` reads, and
(2) `handle_http_metrics` sends exactly one response, status 500 with the
fixed body `Sensor error.`, having read `ch` exactly `READ_TRY_COUNT` times;
nothing is assumed of the other channel, and the body is a constant without
any digit, so it holds none of the readings. -/
theorem all_nan_gives_sensor_error (ch : Channel) (req : Request) (s : State)
    (hn : 1 ≤ cfg.READ_TRY_COUNT)
    (hnan : ∀ j : Nat, (j : Int) < cfg.READ_TRY_COUNT →
      isnan (ch.readings board (ch.calls s + j)) = true) :
    (∀ s0 : State, ch.calls s0 = ch.calls s →
        (read_sensor cfg board (ch.function board) ch.value s0).1 = false
          ∧ ch.calls (read_sensor cfg board (ch.function board) ch.value s0).2
            = ch.calls s0 + cfg.READ_TRY_COUNT.toNat)
      ∧ (∃ s1 new, handle_http_metrics cfg board req s = some s1
        ∧ s1.trace = s.trace ++ new
        ∧ responses new = [(500, text_plain, "Sensor error.".toList)]
        ∧ ch.calls s1 = ch.calls s + cfg.READ_TRY_COUNT.toNat)
      ∧ (∀ c ∈ "Sensor error.".toList, c.isDigit = false) := by
  have hpos : 0 < cfg.READ_TRY_COUNT.toNat := by omega
  have hall : ∀ v, (scan (ch.readings board) cfg.READ_TRY_COUNT.toNat (ch.calls s) v).1 = false
      ∧ (scan (ch.readings board) cfg.READ_TRY_COUNT.toNat (ch.calls s) v).2.2
        = ch.calls s + cfg.READ_TRY_COUNT.toNat
      ∧ isnan (scan (ch.readings board) cfg.READ_TRY_COUNT.toNat (ch.calls s) v).2.1
        = true := by
    intro v
    obtain ⟨a, b, _⟩ := scan_all_nan (ch.readings board) cfg.READ_TRY_COUNT.toNat (ch.calls s)
      v (fun j hj => hnan j (by omega))
    refine ⟨a, b, ?_⟩
    have := scan_flag_iff (ch.readings board) cfg.READ_TRY_COUNT.toNat (ch.calls s) v hpos
    rw [a] at this
    simpa using this
  refine ⟨?_, ?_, by decide⟩
  · intro s0 hs0
    obtain ⟨h1, _, h3⟩ := read_sensor_scan cfg board ch s0
    rw [h1, h3, hs0]
    exact ⟨(hall _).1, (hall _).2.1⟩
  · obtain ⟨_, _, m3, m4, m5, m6, mid, hmid, r1, _, _⟩ := metrics_state_spec cfg board req s
    have hbad : (isnan (metrics_state cfg board req s).busvoltage
        || isnan (metrics_state cfg board req s).current_mA) = true := by
      cases ch with
      | voltage =>
        have := (hall s.busvoltage).2.2
        simp only [Channel.readings, Channel.calls] at this
        rw [m3, this]; rfl
      | current =>
        have := (hall s.current_mA).2.2
        simp only [Channel.readings, Channel.calls] at this
        rw [m5, this]; simp
    refine ⟨send 500 text_plain "Sensor error.".toList (metrics_state cfg board req s),
      Effect.println ⟨board.millis s.millis_calls % 2 ^ 32, LogLevel.INFO,
        snprintf 128 (request_text req)⟩
        :: (mid ++ [Effect.send 500 text_plain "Sensor error.".toList]),
      handle_http_metrics_of_nan cfg board req s hbad, ?_, ?_, ?_⟩
    · show (metrics_state cfg board req s).trace ++ _ = _
      rw [hmid]; simp
    · rw [show ∀ (x : Effect) (l : List Effect), x :: l = [x] ++ l from fun _ _ => rfl,
        responses_append, responses_append, r1]
      rfl
    · cases ch with
      | voltage =>
        show (metrics_state cfg board req s).voltage_calls = _
        rw [m4]; exact (hall s.busvoltage).2.1
      | current =>
        show (metrics_state cfg board req s).current_calls = _
        rw [m6]; exact (hall s.current_mA).2.1

/-- C2 on the scenario of the specification: three tries, current readings
NaN, NaN, NaN, while the voltage channel delivers 7.4 at once. -/
theorem all_nan_gives_sensor_error_witness :
    ∃ s1 new, handle_http_metrics cfg_example
        (board_example [F32.v7_4] [F32.qnan, F32.qnan, F32.qnan]) req_example State.init
        = some s1
      ∧ s1.trace = State.init.trace ++ new
      ∧ responses new = [(500, text_plain, "Sensor error.".toList)]
      ∧ Channel.current.calls s1
        = Channel.current.calls State.init + cfg_example.READ_TRY_COUNT.toNat :=
  (all_nan_gives_sensor_error cfg_example
    (board_example [F32.v7_4] [F32.qnan, F32.qnan, F32.qnan]) Channel.current req_example
    State.init (by decide)
    (fun j hj => by
      have hj3 : (j : Int) < 3 := hj
      have : j = 0 ∨ j = 1 ∨ j = 2 := by omega
      rcases this with rfl | rfl | rfl <;> decide)).2.1

end ReadSensor

/-! ## Results on `read_sensors` and on the status of the metrics route -/

section Cycle

variable (cfg : Config) (board : Board)

set_option maxRecDepth 100000 in
/-- C3 as stated fails: with the namespace `%s`, three tries, voltage 7.4 and
current 123.0, `read_sensor` returns true for both channels, yet no status 200
is sent: the template pasted from the namespace holds conversions that meet
a floating argument, printf has no defined behaviour there, and the handler
produces no response at all. -/
theorem no_status_with_conversion_namespace :
    metrics_voltage_result cfg_conversion (board_example [F32.v7_4] [F32.v123]) req_example
        State.init = true
      ∧ metrics_current_result cfg_conversion (board_example [F32.v7_4] [F32.v123])
          req_example State.init = true
      ∧ handle_http_metrics cfg_conversion (board_example [F32.v7_4] [F32.v123]) req_example
          State.init = none :=
  ⟨by decide, by decide, by decide⟩

/-- C3, amended.  For every `READ_TRY_COUNT >= 1`, all readings of the two
channels and every namespace, provided only that the `snprintf` of the response
template is defined in case `read_sensor` returned true for both channels
(hypothesis `hdef`; nothing is asked when a channel is exhausted):
`handle_http_metrics` sends exactly one response; its status is 500 if and
only if `read_sensor` returned false for the voltage or for the current
channel, and 200 if and only if it returned true for both, so a partial
failure is a 500.  The ERROR records of the cycle are exactly one per
exhausted channel, voltage first.  Each flag agrees with the `isnan` test that
the handler makes on the stored global.  The last part says that `hdef` holds
for every namespace without a `%` character. -/
theorem metrics_status_iff (req : Request) (s : State)
    (hn : 1 ≤ cfg.READ_TRY_COUNT)
    (hdef : metrics_voltage_result cfg board req s = true →
      metrics_current_result cfg board req s = true →
      render cfg board (metrics_state cfg board req s).busvoltage
        (metrics_state cfg board req s).current_mA ≠ none) :
    (∃ s1 new code body, handle_http_metrics cfg board req s = some s1
      ∧ s1.trace = s.trace ++ new
      ∧ responses new = [(code, text_plain, body)]
      ∧ (code = 500 ↔ (metrics_voltage_result cfg board req s = false
          ∨ metrics_current_result cfg board req s = false))
      ∧ (code = 200 ↔ (metrics_voltage_result cfg board req s = true
          ∧ metrics_current_result cfg board req s = true))
      ∧ records LogLevel.ERROR new
        = (if metrics_voltage_result cfg board req s then []
            else ["Failed to read voltage sensor.".toList])
          ++ (if metrics_current_result cfg board req s then []
              else ["Failed to read current sensor.".toList])
      ∧ metrics_voltage_result cfg board req s = !isnan s1.busvoltage
      ∧ metrics_current_result cfg board req s = !isnan s1.current_mA)
    ∧ ('%' ∉ cfg.PROM_NAMESPACE → ∀ v c : F32, render cfg board v c ≠ none) := by
  refine ⟨?_, fun hns v c => by rw [render_eq cfg board v c hns]; exact Option.some_ne_none _⟩
  have hpos : 0 < cfg.READ_TRY_COUNT.toNat := by omega
  obtain ⟨m1, m2, m3, _, m5, _, mid, hmid, r1, _, r3⟩ := metrics_state_spec cfg board req s
  have hV : metrics_voltage_result cfg board req s
      = !isnan (metrics_state cfg board req s).busvoltage := by
    unfold metrics_voltage_result
    rw [m1, m3]
    exact scan_flag_iff _ _ _ _ hpos
  have hC : metrics_current_result cfg board req s
      = !isnan (metrics_state cfg board req s).current_mA := by
    unfold metrics_current_result
    rw [m2, m5]
    exact scan_flag_iff _ _ _ _ hpos
  have hE : ∀ x : Effect, (∀ r, x ≠ Effect.println r) →
      records LogLevel.ERROR (Effect.println ⟨board.millis s.millis_calls % 2 ^ 32,
        LogLevel.INFO, snprintf 128 (request_text req)⟩ :: (mid ++ [x]))
      = (if metrics_voltage_result cfg board req s then []
          else ["Failed to read voltage sensor.".toList])
        ++ (if metrics_current_result cfg board req s then []
            else ["Failed to read current sensor.".toList]) := by
    intro x hx
    rw [show ∀ (y : Effect) (l : List Effect), y :: l = [y] ++ l from fun _ _ => rfl,
      records_append, records_append, r3]
    cases x with
    | println r => exact absurd rfl (hx r)
    | getBusVoltage_V _ => simp [records, metrics_voltage_result, metrics_current_result]
    | getCurrent_mA _ => simp [records, metrics_voltage_result, metrics_current_result]
    | send _ _ _ => simp [records, metrics_voltage_result, metrics_current_result]
  have hR : ∀ code body, responses (Effect.println ⟨board.millis s.millis_calls % 2 ^ 32,
        LogLevel.INFO, snprintf 128 (request_text req)⟩
          :: (mid ++ [Effect.send code text_plain body]))
      = [(code, text_plain, body)] := by
    intro code body
    rw [show ∀ (y : Effect) (l : List Effect), y :: l = [y] ++ l from fun _ _ => rfl,
      responses_append, responses_append, r1]
    rfl
  cases hbad : (isnan (metrics_state cfg board req s).busvoltage
      || isnan (metrics_state cfg board req s).current_mA)
  · have hb := hbad
    simp only [Bool.or_eq_false_iff] at hb
    have hVt : metrics_voltage_result cfg board req s = true := by rw [hV, hb.1]; rfl
    have hCt : metrics_current_result cfg board req s = true := by rw [hC, hb.2]; rfl
    obtain ⟨full, hfull⟩ : ∃ full, render cfg board (metrics_state cfg board req s).busvoltage
        (metrics_state cfg board req s).current_mA = some full :=
      Option.ne_none_iff_exists'.mp (hdef hVt hCt)
    refine ⟨send 200 text_plain (snprintf 1024 full) (metrics_state cfg board req s),
      Effect.println ⟨board.millis s.millis_calls % 2 ^ 32, LogLevel.INFO,
        snprintf 128 (request_text req)⟩
        :: (mid ++ [Effect.send 200 text_plain (snprintf 1024 full)]),
      200, snprintf 1024 full, ?_, ?_, hR 200 _, ?_, ?_, hE _ (fun r h => by cases h), hV, hC⟩
    · rw [handle_http_metrics_of_not_nan cfg board req s hbad, hfull]
      rfl
    · show (metrics_state cfg board req s).trace ++ _ = _
      rw [hmid]; simp
    · rw [hVt, hCt]; simp
    · rw [hVt, hCt]; simp
  · refine ⟨send 500 text_plain "Sensor error.".toList (metrics_state cfg board req s),
      Effect.println ⟨board.millis s.millis_calls % 2 ^ 32, LogLevel.INFO,
        snprintf 128 (request_text req)⟩
        :: (mid ++ [Effect.send 500 text_plain "Sensor error.".toList]),
      500, "Sensor error.".toList, handle_http_metrics_of_nan cfg board req s hbad, ?_,
      hR 500 _, ?_, ?_,
      hE _ (fun r h => by cases h), hV, hC⟩
    · show (metrics_state cfg board req s).trace ++ _ = _
      rw [hmid]; simp
    · rw [hV, hC]
      simp only [Bool.or_eq_true] at hbad
      simpa using hbad
    · rw [hV, hC]
      simp only [Bool.or_eq_true] at hbad
      rcases hbad with h | h <;> simp [h]

set_option maxRecDepth 100000 in
/-- C3, amended, on two runs.  First the namespace `b%%` with both channels
accepted: the template is defined and the status is decided by the flags.
Second the namespace `%s` with the current channel exhausted (voltage 7.4,
current NaN three times): nothing is asked of the template, and the partial
failure is answered. -/
theorem metrics_status_iff_witness :
    (∃ s1 new code body, handle_http_metrics cfg_percent
          (board_example [F32.v7_4] [F32.v123]) req_example State.init = some s1
        ∧ s1.trace = State.init.trace ++ new
        ∧ responses new = [(code, text_plain, body)]
        ∧ (code = 500 ↔ (metrics_voltage_result cfg_percent
              (board_example [F32.v7_4] [F32.v123]) req_example State.init = false
            ∨ metrics_current_result cfg_percent
              (board_example [F32.v7_4] [F32.v123]) req_example State.init = false))
        ∧ (code = 200 ↔ (metrics_voltage_result cfg_percent
              (board_example [F32.v7_4] [F32.v123]) req_example State.init = true
            ∧ metrics_current_result cfg_percent
              (board_example [F32.v7_4] [F32.v123]) req_example State.init = true))
        ∧ records LogLevel.ERROR new
          = (if metrics_voltage_result cfg_percent
                (board_example [F32.v7_4] [F32.v123]) req_example State.init
              then [] else ["Failed to read voltage sensor.".toList])
            ++ (if metrics_current_result cfg_percent
                  (board_example [F32.v7_4] [F32.v123]) req_example State.init
                then [] else ["Failed to read current sensor.".toList])
        ∧ metrics_voltage_result cfg_percent
            (board_example [F32.v7_4] [F32.v123]) req_example State.init
          = !isnan s1.busvoltage
        ∧ metrics_current_result cfg_percent
            (board_example [F32.v7_4] [F32.v123]) req_example State.init
          = !isnan s1.current_mA)
      ∧ (∃ s1 new code body, handle_http_metrics cfg_conversion
          (board_example [F32.v7_4] [F32.qnan, F32.qnan, F32.qnan]) req_example State.init
          = some s1
        ∧ s1.trace = State.init.trace ++ new
        ∧ responses new = [(code, text_plain, body)]
        ∧ (code = 500 ↔ (metrics_voltage_result cfg_conversion
              (board_example [F32.v7_4] [F32.qnan, F32.qnan, F32.qnan]) req_example State.init
              = false
            ∨ metrics_current_result cfg_conversion
              (board_example [F32.v7_4] [F32.qnan, F32.qnan, F32.qnan]) req_example State.init
              = false))
        ∧ (code = 200 ↔ (metrics_voltage_result cfg_conversion
              (board_example [F32.v7_4] [F32.qnan, F32.qnan, F32.qnan]) req_example State.init
              = true
            ∧ metrics_current_result cfg_conversion
              (board_example [F32.v7_4] [F32.qnan, F32.qnan, F32.qnan]) req_example State.init
              = true))
        ∧ records LogLevel.ERROR new
          = (if metrics_voltage_result cfg_conversion
                (board_example [F32.v7_4] [F32.qnan, F32.qnan, F32.qnan]) req_example
                State.init
              then [] else ["Failed to read voltage sensor.".toList])
            ++ (if metrics_current_result cfg_conversion
                  (board_example [F32.v7_4] [F32.qnan, F32.qnan, F32.qnan]) req_example
                  State.init
                then [] else ["Failed to read current sensor.".toList])
        ∧ metrics_voltage_result cfg_conversion
            (board_example [F32.v7_4] [F32.qnan, F32.qnan, F32.qnan]) req_example State.init
          = !isnan s1.busvoltage
        ∧ metrics_current_result cfg_conversion
            (board_example [F32.v7_4] [F32.qnan, F32.qnan, F32.qnan]) req_example State.init
          = !isnan s1.current_mA) :=
  ⟨(metrics_status_iff cfg_percent (board_example [F32.v7_4] [F32.v123]) req_example
      State.init (by decide) (fun _ _ => by decide)).1,
    (metrics_status_iff cfg_conversion
      (board_example [F32.v7_4] [F32.qnan, F32.qnan, F32.qnan]) req_example State.init
      (by decide) (fun _ h => absurd h (by decide))).1⟩

/-- C8. For every `READ_TRY_COUNT >= 1`, in every call of `read_sensors`:
(1) the current channel is read at least once and at most `READ_TRY_COUNT`
times, whatever the voltage channel returns;
(2) on two boards with the same current readings (and any voltage readings,
clock and formatter) the current channel ends with the same flag, the same
stored value and the same number of reads;
(3) symmetrically, on two boards with the same voltage readings the voltage
channel ends with the same flag, stored value and number of reads. -/
theorem channels_independent (b1 b2 : Board) (force : Bool) (s : State)
    (hn : 1 ≤ cfg.READ_TRY_COUNT) :
    (s.current_calls + 1 ≤ (read_sensors cfg b1 force s).current_calls
        ∧ ((read_sensors cfg b1 force s).current_calls : Int)
          ≤ s.current_calls + cfg.READ_TRY_COUNT)
      ∧ (b1.getCurrent_mA = b2.getCurrent_mA →
          current_result cfg b1 (read_voltage_sensor cfg b1 (read_sensors_entry b1 s))
              = current_result cfg b2 (read_voltage_sensor cfg b2 (read_sensors_entry b2 s))
            ∧ (read_sensors cfg b1 force s).current_mA
              = (read_sensors cfg b2 force s).current_mA
            ∧ (read_sensors cfg b1 force s).current_calls
              = (read_sensors cfg b2 force s).current_calls)
      ∧ (b1.getBusVoltage_V = b2.getBusVoltage_V →
          voltage_result cfg b1 (read_sensors_entry b1 s)
              = voltage_result cfg b2 (read_sensors_entry b2 s)
            ∧ (read_sensors cfg b1 force s).busvoltage
              = (read_sensors cfg b2 force s).busvoltage
            ∧ (read_sensors cfg b1 force s).voltage_calls
              = (read_sensors cfg b2 force s).voltage_calls) := by
  have hpos : 0 < cfg.READ_TRY_COUNT.toNat := by omega
  obtain ⟨a1, a2, a3, a4, a5, a6, _⟩ := read_sensors_spec cfg b1 force s
  obtain ⟨c1, c2, c3, c4, c5, c6, _⟩ := read_sensors_spec cfg b2 force s
  refine ⟨?_, ?_, ?_⟩
  · have := scan_calls_bounds b1.getCurrent_mA cfg.READ_TRY_COUNT.toNat s.current_calls
      s.current_mA hpos
    rw [a6]
    omega
  · intro h
    rw [a2, a5, a6, c2, c5, c6, h]
    exact ⟨rfl, rfl, rfl⟩
  · intro h
    rw [a1, a3, a4, c1, c3, c4, h]
    exact ⟨rfl, rfl, rfl⟩

/-- C8 on two boards that differ in the voltage readings only: on the first
the voltage channel is exhausted, on the second it succeeds at once. -/
theorem channels_independent_witness :
    current_result cfg_example
        (board_example [F32.qnan, F32.qnan, F32.qnan] [F32.qnan, F32.v123])
        (read_voltage_sensor cfg_example
          (board_example [F32.qnan, F32.qnan, F32.qnan] [F32.qnan, F32.v123])
          (read_sensors_entry
            (board_example [F32.qnan, F32.qnan, F32.qnan] [F32.qnan, F32.v123]) State.init))
        = current_result cfg_example (board_example [F32.v7_4] [F32.qnan, F32.v123])
          (read_voltage_sensor cfg_example (board_example [F32.v7_4] [F32.qnan, F32.v123])
            (read_sensors_entry (board_example [F32.v7_4] [F32.qnan, F32.v123]) State.init))
      ∧ (read_sensors cfg_example
          (board_example [F32.qnan, F32.qnan, F32.qnan] [F32.qnan, F32.v123]) false
          State.init).current_mA
        = (read_sensors cfg_example (board_example [F32.v7_4] [F32.qnan, F32.v123]) false
            State.init).current_mA
      ∧ (read_sensors cfg_example
          (board_example [F32.qnan, F32.qnan, F32.qnan] [F32.qnan, F32.v123]) false
          State.init).current_calls
        = (read_sensors cfg_example (board_example [F32.v7_4] [F32.qnan, F32.v123]) false
            State.init).current_calls :=
  (channels_independent cfg_example
    (board_example [F32.qnan, F32.qnan, F32.qnan] [F32.qnan, F32.v123])
    (board_example [F32.v7_4] [F32.qnan, F32.v123]) false State.init (by decide)).2.1 rfl

/-- C9. Whatever the prior state, the `force` argument and the readings of the
two channels: after `read_sensors` returns, `previous_read_time` is the value
that `millis()` delivered at the start of the call; the result does not depend
on `force`; and it does not depend on the prior `previous_read_time` (the
timestamp gates nothing). -/
theorem read_sensors_timestamp (force : Bool) (s : State) :
    (read_sensors cfg board force s).previous_read_time = (millis board s).1
      ∧ (∀ force2 : Bool, read_sensors cfg board force2 s = read_sensors cfg board force s)
      ∧ (∀ t : Nat, read_sensors cfg board force { s with previous_read_time := t }
          = read_sensors cfg board force s) := by
  obtain ⟨_, _, _, _, _, _, h, _⟩ := read_sensors_spec cfg board force s
  exact ⟨h, fun _ => rfl, fun _ => rfl⟩

end Cycle

/-! ## The static routes and the request record -/

section Routes

variable (cfg : Config) (board : Board)

theorem snprintf_length_le (size : Nat) (full : CString) :
    (snprintf size full).length ≤ size - 1 := by
  unfold snprintf
  exact List.length_take_le _ _

theorem snprintf_prefix (size : Nat) (full : CString) : snprintf size full <+: full := by
  unfold snprintf
  exact List.take_prefix _ _

theorem snprintf_of_fits (size : Nat) (full : CString) (h : full.length ≤ size - 1) :
    snprintf size full = full := by
  unfold snprintf
  exact List.take_of_length_le h

theorem snprintf_of_long (size : Nat) (full : CString) (h : size - 1 < full.length) :
    (snprintf size full).length = size - 1 := by
  unfold snprintf
  rw [List.length_take]
  omega

theorem root_text_length : (root_text cfg).length = 118 + cfg.HTTP_METRICS_ENDPOINT.length := by
  unfold root_text
  simp only [List.length_append]
  have e1 : "Prometheus ESP8266 DHT Exporter by HON95.\n".toList.length = 42 := by decide
  have e2 : "\n".toList.length = 1 := by decide
  have e3 : "Project: https://github.com/HON95/prometheus-esp8266-dht-exporter\n".toList.length
      = 66 := by decide
  have e4 : "Usage: ".toList.length = 7 := by decide
  rw [e1, e2, e3, e4]
  omega

/-- The trace left by `handle_http_root`. -/
theorem handle_http_root_trace (req : Request) (s : State) :
    (handle_http_root cfg board req s).trace
      = s.trace ++ [Effect.println ⟨(millis board s).1, LogLevel.INFO,
            snprintf 128 (request_text req)⟩,
          Effect.send 200 text_plain (snprintf 256 (root_text cfg))] := by
  obtain ⟨_, _, _, _, _, h⟩ := log_request_spec cfg board req s
  show (log_request cfg board req s).trace ++ _ = _
  rw [h]
  simp [millis]

/-- The trace left by `handle_http_not_found`. -/
theorem handle_http_not_found_trace (req : Request) (s : State) :
    (handle_http_not_found cfg board req s).trace
      = s.trace ++ [Effect.println ⟨(millis board s).1, LogLevel.INFO,
            snprintf 128 (request_text req)⟩,
          Effect.send 404 text_plain "Not found.".toList] := by
  obtain ⟨_, _, _, _, _, h⟩ := log_request_spec cfg board req s
  show (log_request cfg board req s).trace ++ _ = _
  rw [h]
  simp [millis]

set_option maxRecDepth 100000 in
/-- C6 as stated fails: with a configured metrics path of 200 bytes,
`handle_http_root` answers 200 with a body of 255 bytes that is not the help
text and in which the metrics path does not occur: the response buffer has cut
the path. -/
theorem help_text_cut :
    (handle_http_root cfg_long_path (board_example [] []) req_example State.init).trace
        = [Effect.println ⟨1000, LogLevel.INFO, snprintf 128 (request_text req_example)⟩,
            Effect.send 200 text_plain (snprintf 256 (root_text cfg_long_path))]
      ∧ (snprintf 256 (root_text cfg_long_path)).length = 255
      ∧ cfg_long_path.HTTP_METRICS_ENDPOINT.length = 200
      ∧ snprintf 256 (root_text cfg_long_path) ≠ root_text cfg_long_path
      ∧ ¬ (cfg_long_path.HTTP_METRICS_ENDPOINT
            <:+: snprintf 256 (root_text cfg_long_path)) := by
  refine ⟨?_, by decide, ?_, by decide, by decide⟩
  · rw [handle_http_root_trace]
    rfl
  · show ('/' :: List.replicate 199 'm').length = 200
    rw [List.length_cons, List.length_replicate]

/-- C6, amended.  For every state of the globals `busvoltage`, `current_mA`
and `previous_read_time` (NaN included):
`handle_http_root` sends exactly one response, status 200, whose body is the
help text cut to the 255 bytes of the response buffer; the help text ends with
`Usage: `, the configured metrics path and a newline; the body is the whole
help text when the path has at most 137 bytes, and its first 255 bytes
otherwise; `handle_http_not_found` sends exactly one response, status 404 with
the body `Not found.`.  Both make no sensor read, leave the three globals and
the read counts unchanged, and produce the same effects whatever the three
globals hold. -/
theorem static_routes_frame (req : Request) (s : State) :
    (∃ new, (handle_http_root cfg board req s).trace = s.trace ++ new
        ∧ responses new = [(200, text_plain, snprintf 256 (root_text cfg))]
        ∧ sensor_reads new = [])
      ∧ snprintf 256 (root_text cfg) <+: root_text cfg
      ∧ ("Usage: ".toList ++ cfg.HTTP_METRICS_ENDPOINT ++ "\n".toList) <:+ root_text cfg
      ∧ (cfg.HTTP_METRICS_ENDPOINT.length ≤ 137 → snprintf 256 (root_text cfg) = root_text cfg)
      ∧ (∃ new, (handle_http_not_found cfg board req s).trace = s.trace ++ new
        ∧ responses new = [(404, text_plain, "Not found.".toList)]
        ∧ sensor_reads new = [])
      ∧ ((handle_http_root cfg board req s).busvoltage = s.busvoltage
        ∧ (handle_http_root cfg board req s).current_mA = s.current_mA
        ∧ (handle_http_root cfg board req s).previous_read_time = s.previous_read_time
        ∧ (handle_http_root cfg board req s).voltage_calls = s.voltage_calls
        ∧ (handle_http_root cfg board req s).current_calls = s.current_calls)
      ∧ ((handle_http_not_found cfg board req s).busvoltage = s.busvoltage
        ∧ (handle_http_not_found cfg board req s).current_mA = s.current_mA
        ∧ (handle_http_not_found cfg board req s).previous_read_time = s.previous_read_time
        ∧ (handle_http_not_found cfg board req s).voltage_calls = s.voltage_calls
        ∧ (handle_http_not_found cfg board req s).current_calls = s.current_calls)
      ∧ (∀ (v c : F32) (t : Nat),
          (handle_http_root cfg board req
              { s with busvoltage := v, current_mA := c, previous_read_time := t }).trace
            = (handle_http_root cfg board req s).trace
          ∧ (handle_http_not_found cfg board req
              { s with busvoltage := v, current_mA := c, previous_read_time := t }).trace
            = (handle_http_not_found cfg board req s).trace)
      ∧ (137 < cfg.HTTP_METRICS_ENDPOINT.length →
          snprintf 256 (root_text cfg) = (root_text cfg).take 255
            ∧ (snprintf 256 (root_text cfg)).length = 255) := by
  obtain ⟨l1, l2, l3, l4, l5, _⟩ := log_request_spec cfg board req s
  refine ⟨⟨_, handle_http_root_trace cfg board req s, rfl, rfl⟩, snprintf_prefix _ _, ?_, ?_,
    ⟨_, handle_http_not_found_trace cfg board req s, rfl, rfl⟩,
    ⟨l1, l2, l3, l4, l5⟩, ⟨l1, l2, l3, l4, l5⟩, ?_,
    fun h => ⟨rfl, snprintf_of_long 256 _ (by rw [root_text_length]; omega)⟩⟩
  · refine ⟨"Prometheus ESP8266 DHT Exporter by HON95.\n".toList ++ "\n".toList
      ++ "Project: https://github.com/HON95/prometheus-esp8266-dht-exporter\n".toList
      ++ "\n".toList, ?_⟩
    unfold root_text
    simp only [List.append_assoc]
  · intro h
    apply snprintf_of_fits
    rw [root_text_length]
    omega
  · intro v c t
    rw [handle_http_root_trace, handle_http_root_trace, handle_http_not_found_trace,
      handle_http_not_found_trace]
    exact ⟨rfl, rfl⟩

/-- C6, amended, with NaN left in both globals: on the scenario configuration
the help text for the path `/metrics` is sent whole; with the path of 200
bytes the body has exactly 255 bytes. -/
theorem static_routes_frame_witness :
    snprintf 256 (root_text cfg_example) = root_text cfg_example
      ∧ (snprintf 256 (root_text cfg_long_path)).length = 255 :=
  ⟨(static_routes_frame cfg_example (board_example [] []) req_example
      { State.init with busvoltage := F32.qnan, current_mA := F32.qnan }).2.2.2.1 (by decide),
    ((static_routes_frame cfg_long_path (board_example [] []) req_example
      { State.init with busvoltage := F32.qnan, current_mA := F32.qnan }).2.2.2.2.2.2.2.2
      (by
        show 137 < ('/' :: List.replicate 199 'm').length
        rw [List.length_cons, List.length_replicate]
        omega)).2⟩

/-- C7 as stated fails: a request whose path has 200 bytes, served by
`handle_http_not_found`.  The request record is the only log record, it has
INFO severity, its message has 127 bytes, and the request path is not part of
it: the message buffer has cut the path. -/
theorem request_record_cut :
    (handle_http_not_found cfg_example (board_example [] []) req_long State.init).trace
        = [Effect.println ⟨1000, LogLevel.INFO, snprintf 128 (request_text req_long)⟩,
            Effect.send 404 text_plain "Not found.".toList]
      ∧ (snprintf 128 (request_text req_long)).length = 127
      ∧ req_long.uri.length = 200
      ∧ ¬ (req_long.uri <:+: snprintf 128 (request_text req_long)) := by
  have huri : req_long.uri.length = 200 := by
    show ('/' :: List.replicate 199 'a').length = 200
    rw [List.length_cons, List.length_replicate]
  have hlen : (snprintf 128 (request_text req_long)).length = 127 :=
    snprintf_of_long 128 (request_text req_long) (by
      unfold request_text
      simp only [List.length_append]
      rw [huri]
      omega)
  refine ⟨?_, hlen, huri, ?_⟩
  · rw [handle_http_not_found_trace]
    rfl
  · intro h
    have := h.length_le
    omega

/-- C7, amended.  For each of the three handlers, every request and every
configuration (every `DEBUG_MODE`, every namespace), the effects of the handler
start with one record at INFO severity whose message is the text
`Request: client=<address>:<port> method=<name> path=<path>` cut to 127 bytes;
no further INFO record follows.
(1), (2) On the root and the not-found route the record is followed by the
response and nothing else.
(3) On the metrics route the record is followed by the effects `mid` of the
sensor cycle, among which there is no INFO record and no response; whenever
the handler sends its response, on the 500 path as on the 200 path, the whole
trace is the record, then `mid`, then that one response.  The handler fails to
send a response only when both readings are accepted and the `snprintf` of the
template is undefined for the configured namespace; the record and the sensor
reads have been made by then.
(4), (5), (6) The message has at most 127 bytes, is a prefix of the full text,
and is the full text, with address, port, method name and path, whenever that
text has at most 127 bytes. -/
theorem request_logged_first (req : Request) (s : State) :
    (handle_http_root cfg board req s).trace
        = s.trace ++ [Effect.println ⟨(millis board s).1, LogLevel.INFO,
              snprintf 128 (request_text req)⟩,
            Effect.send 200 text_plain (snprintf 256 (root_text cfg))]
      ∧ (handle_http_not_found cfg board req s).trace
        = s.trace ++ [Effect.println ⟨(millis board s).1, LogLevel.INFO,
              snprintf 128 (request_text req)⟩,
            Effect.send 404 text_plain "Not found.".toList]
      ∧ (∃ mid, (metrics_state cfg board req s).trace
            = s.trace ++ Effect.println ⟨(millis board s).1, LogLevel.INFO,
                snprintf 128 (request_text req)⟩ :: mid
          ∧ records LogLevel.INFO mid = []
          ∧ responses mid = []
          ∧ (handle_http_metrics cfg board req s = none ↔
              ((isnan (metrics_state cfg board req s).busvoltage
                  || isnan (metrics_state cfg board req s).current_mA) = false
                ∧ render cfg board (metrics_state cfg board req s).busvoltage
                    (metrics_state cfg board req s).current_mA = none))
          ∧ ∀ s1, handle_http_metrics cfg board req s = some s1 →
              ∃ code body, s1.trace = s.trace ++ Effect.println ⟨(millis board s).1,
                    LogLevel.INFO, snprintf 128 (request_text req)⟩
                    :: (mid ++ [Effect.send code text_plain body])
                ∧ (code = 500 ↔ (isnan s1.busvoltage || isnan s1.current_mA) = true)
                ∧ (code = 200 ↔ (isnan s1.busvoltage || isnan s1.current_mA) = false))
      ∧ (snprintf 128 (request_text req)).length ≤ 127
      ∧ snprintf 128 (request_text req) <+: request_text req
      ∧ ((request_text req).length ≤ 127 →
          snprintf 128 (request_text req)
            = "Request: client=".toList ++ req.remoteIP ++ ":".toList
              ++ Nat.toDigits 10 req.remotePort ++ " method=".toList
              ++ get_http_method_name 16 req.method ++ " path=".toList ++ req.uri) := by
  refine ⟨handle_http_root_trace cfg board req s, handle_http_not_found_trace cfg board req s,
    ?_, snprintf_length_le _ _, snprintf_prefix _ _, fun h => snprintf_of_fits _ _ h⟩
  obtain ⟨_, _, _, _, _, _, mid, hmid, r1, r2, _⟩ := metrics_state_spec cfg board req s
  refine ⟨mid, hmid, r2, r1, ?_, ?_⟩
  · cases hbad : (isnan (metrics_state cfg board req s).busvoltage
        || isnan (metrics_state cfg board req s).current_mA)
    · rw [handle_http_metrics_of_not_nan cfg board req s hbad]
      cases render cfg board (metrics_state cfg board req s).busvoltage
        (metrics_state cfg board req s).current_mA <;> simp
    · rw [handle_http_metrics_of_nan cfg board req s hbad]
      simp
  · intro s1 h1
    cases hbad : (isnan (metrics_state cfg board req s).busvoltage
        || isnan (metrics_state cfg board req s).current_mA)
    · rw [handle_http_metrics_of_not_nan cfg board req s hbad] at h1
      cases hr : render cfg board (metrics_state cfg board req s).busvoltage
        (metrics_state cfg board req s).current_mA with
      | none => rw [hr] at h1; exact absurd h1 (by simp)
      | some full =>
        rw [hr] at h1
        have e : send 200 text_plain (snprintf 1024 full) (metrics_state cfg board req s)
            = s1 := Option.some.inj h1
        subst e
        refine ⟨200, snprintf 1024 full, ?_, ?_, ?_⟩
        · show (metrics_state cfg board req s).trace ++ _ = _
          rw [hmid]; simp [millis]
        · show 200 = 500 ↔ (isnan (metrics_state cfg board req s).busvoltage
            || isnan (metrics_state cfg board req s).current_mA) = true
          rw [hbad]; simp
        · show 200 = 200 ↔ (isnan (metrics_state cfg board req s).busvoltage
            || isnan (metrics_state cfg board req s).current_mA) = false
          rw [hbad]; simp
    · rw [handle_http_metrics_of_nan cfg board req s hbad] at h1
      have e : send 500 text_plain "Sensor error.".toList (metrics_state cfg board req s)
          = s1 := Option.some.inj h1
      subst e
      refine ⟨500, "Sensor error.".toList, ?_, ?_, ?_⟩
      · show (metrics_state cfg board req s).trace ++ _ = _
        rw [hmid]; simp [millis]
      · show 500 = 500 ↔ (isnan (metrics_state cfg board req s).busvoltage
          || isnan (metrics_state cfg board req s).current_mA) = true
        rw [hbad]; simp
      · show 500 = 200 ↔ (isnan (metrics_state cfg board req s).busvoltage
          || isnan (metrics_state cfg board req s).current_mA) = false
        rw [hbad]; simp

set_option maxRecDepth 100000 in
/-- C7, amended, for the request of the scenario.  First with debug logging
on and the namespace `%s`, the current channel being exhausted: the handler
sends its 500 response and the request record comes first.  Second with the
namespace `b%%` and both readings accepted: the handler sends its 200
response and the request record comes first.  The record holds the full
text. -/
theorem request_logged_first_witness :
    (∃ mid code body, (send 500 text_plain "Sensor error.".toList
          (metrics_state { cfg_conversion with DEBUG_MODE := 1 }
            (board_example [F32.qnan, F32.v7_4] [F32.qnan, F32.qnan, F32.qnan])
            req_example State.init)).trace
        = State.init.trace ++ Effect.println
            ⟨(millis (board_example [F32.qnan, F32.v7_4] [F32.qnan, F32.qnan, F32.qnan])
                State.init).1,
              LogLevel.INFO, snprintf 128 (request_text req_example)⟩
            :: (mid ++ [Effect.send code text_plain body])
        ∧ records LogLevel.INFO mid = []
        ∧ responses mid = []
        ∧ code = 500)
      ∧ (∃ mid code body, (send 200 text_plain
            (snprintf 1024 (document "b%".toList "1.2.0".toList "esp_x".toList
              "ina219".toList "7.400000".toList "123.000000".toList))
            (metrics_state cfg_percent (board_example [F32.v7_4] [F32.v123])
              req_example State.init)).trace
          = State.init.trace ++ Effect.println
              ⟨(millis (board_example [F32.v7_4] [F32.v123]) State.init).1,
                LogLevel.INFO, snprintf 128 (request_text req_example)⟩
              :: (mid ++ [Effect.send code text_plain body])
          ∧ records LogLevel.INFO mid = []
          ∧ responses mid = []
          ∧ code = 200)
      ∧ snprintf 128 (request_text req_example)
        = "Request: client=".toList ++ req_example.remoteIP ++ ":".toList
          ++ Nat.toDigits 10 req_example.remotePort ++ " method=".toList
          ++ get_http_method_name 16 req_example.method ++ " path=".toList
          ++ req_example.uri := by
  obtain ⟨_, _, ⟨mid, _, h2, h3, _, h5⟩, _, _, h8⟩ :=
    request_logged_first { cfg_conversion with DEBUG_MODE := 1 }
      (board_example [F32.qnan, F32.v7_4] [F32.qnan, F32.qnan, F32.qnan]) req_example State.init
  obtain ⟨code, body, t1, t2, _⟩ := h5 _
    (handle_http_metrics_of_nan _ _ req_example State.init (by decide))
  obtain ⟨_, _, ⟨mid2, _, k2, k3, _, k5⟩, _⟩ :=
    request_logged_first cfg_percent (board_example [F32.v7_4] [F32.v123]) req_example
      State.init
  have hr : render cfg_percent (board_example [F32.v7_4] [F32.v123])
      (metrics_state cfg_percent (board_example [F32.v7_4] [F32.v123]) req_example
        State.init).busvoltage
      (metrics_state cfg_percent (board_example [F32.v7_4] [F32.v123]) req_example
        State.init).current_mA
      = some (document "b%".toList "1.2.0".toList "esp_x".toList "ina219".toList
          "7.400000".toList "123.000000".toList) := by decide
  obtain ⟨code2, body2, u1, _, u3⟩ := k5 _ (by
    rw [handle_http_metrics_of_not_nan _ _ req_example State.init (by decide), hr]
    rfl)
  exact ⟨⟨mid, code, body, t1, h2, h3, t2.mpr (by decide)⟩,
    ⟨mid2, code2, body2, u1, k2, k3, u3.mpr (by decide)⟩, h8 (by decide)⟩

end Routes

/-! ## The body of a successful metrics response -/

section Body

variable (cfg : Config) (board : Board)

/-- The success path of `handle_http_metrics` for a namespace free of `%`: the
response sent and the trace left. -/
theorem handle_http_metrics_success (req : Request) (s : State)
    (hns : '%' ∉ cfg.PROM_NAMESPACE)
    (hok : (isnan (metrics_state cfg board req s).busvoltage
      || isnan (metrics_state cfg board req s).current_mA) = false) :
    ∃ s1 new, handle_http_metrics cfg board req s = some s1
      ∧ s1.trace = s.trace ++ new
      ∧ responses new = [(200, text_plain,
          snprintf 1024 (document cfg.PROM_NAMESPACE cfg.VERSION cfg.BOARD_NAME cfg.SENSOR_NAME
            (board.fmt_f (metrics_state cfg board req s).busvoltage)
            (board.fmt_f (metrics_state cfg board req s).current_mA)))] := by
  obtain ⟨_, _, _, _, _, _, mid, hmid, r1, _, _⟩ := metrics_state_spec cfg board req s
  obtain ⟨body, hbody⟩ : ∃ body, body = snprintf 1024 (document cfg.PROM_NAMESPACE
      cfg.VERSION cfg.BOARD_NAME cfg.SENSOR_NAME
      (board.fmt_f (metrics_state cfg board req s).busvoltage)
      (board.fmt_f (metrics_state cfg board req s).current_mA)) := ⟨_, rfl⟩
  rw [← hbody]
  refine ⟨send 200 text_plain body (metrics_state cfg board req s),
    Effect.println ⟨board.millis s.millis_calls % 2 ^ 32, LogLevel.INFO,
      snprintf 128 (request_text req)⟩ :: (mid ++ [Effect.send 200 text_plain body]),
    ?_, ?_, ?_⟩
  · rw [handle_http_metrics_of_not_nan cfg board req s hok, render_eq cfg board _ _ hns, hbody]
    rfl
  · show (metrics_state cfg board req s).trace ++ _ = _
    rw [hmid]; simp
  · rw [show ∀ (y : Effect) (l : List Effect), y :: l = [y] ++ l from fun _ _ => rfl,
      responses_append, responses_append, r1]
    rfl

set_option maxRecDepth 100000 in
/-- C4 as stated fails, in two ways.
(1) On the scenario of the specification (namespace `batt`, readings 7.4 and
123.0) the 200 body is `document`, whose third line is `# UNIT batt_info`
followed by a blank; it is not the specified document, whose third line ends
right after `_info`.
(2) With the namespace `b%%` the body names the metrics `b%_info` and so on:
printf turns the two percent signs into one, so the body is not built from
the namespace as configured, in either layout. -/
theorem body_differs_from_specified :
    (handle_http_metrics cfg_example (board_example [F32.v7_4] [F32.v123]) req_example
        State.init).map (fun s1 => responses s1.trace)
        = some [(200, text_plain, document "batt".toList "1.2.0".toList "esp_x".toList
            "ina219".toList "7.400000".toList "123.000000".toList)]
      ∧ (handle_http_metrics cfg_example (board_example [F32.v7_4] [F32.v123]) req_example
          State.init).map (fun s1 => responses s1.trace)
        ≠ some [(200, text_plain, specified_document "batt".toList "1.2.0".toList
            "esp_x".toList "ina219".toList "7.400000".toList "123.000000".toList)]
      ∧ (handle_http_metrics cfg_percent (board_example [F32.v7_4] [F32.v123]) req_example
          State.init).map (fun s1 => responses s1.trace)
        = some [(200, text_plain, document "b%".toList "1.2.0".toList "esp_x".toList
            "ina219".toList "7.400000".toList "123.000000".toList)]
      ∧ (handle_http_metrics cfg_percent (board_example [F32.v7_4] [F32.v123]) req_example
          State.init).map (fun s1 => responses s1.trace)
        ≠ some [(200, text_plain, specified_document "b%%".toList "1.2.0".toList
            "esp_x".toList "ina219".toList "7.400000".toList "123.000000".toList)]
      ∧ (handle_http_metrics cfg_percent (board_example [F32.v7_4] [F32.v123]) req_example
          State.init).map (fun s1 => responses s1.trace)
        ≠ some [(200, text_plain, document "b%%".toList "1.2.0".toList
            "esp_x".toList "ina219".toList "7.400000".toList "123.000000".toList)] :=
  ⟨by decide, by decide, by decide, by decide, by decide⟩

/-- C4, amended.  For every namespace `ns` without a `%` character, identity
strings `v`, `b`, `sn` and pair of readings accepted in this cycle (neither is
NaN) whose rendered document has at most 1023 bytes, `handle_http_metrics`
sends exactly one response, status 200, whose body is `document`: the twelve
newline-terminated lines of the specification in their order, except that the
third line is `# UNIT <ns>_info` followed by one blank.  The `%f` rendering
of the voltage stands on the eighth line only, that of the current on the
twelfth line only. -/
theorem metrics_body_exact (req : Request) (s : State)
    (hns : '%' ∉ cfg.PROM_NAMESPACE)
    (hok : (isnan (metrics_state cfg board req s).busvoltage
      || isnan (metrics_state cfg board req s).current_mA) = false)
    (hfit : (document cfg.PROM_NAMESPACE cfg.VERSION cfg.BOARD_NAME cfg.SENSOR_NAME
      (board.fmt_f (metrics_state cfg board req s).busvoltage)
      (board.fmt_f (metrics_state cfg board req s).current_mA)).length ≤ 1023) :
    ∃ s1 new, handle_http_metrics cfg board req s = some s1
      ∧ s1.trace = s.trace ++ new
      ∧ responses new = [(200, text_plain,
          document cfg.PROM_NAMESPACE cfg.VERSION cfg.BOARD_NAME cfg.SENSOR_NAME
            (board.fmt_f (metrics_state cfg board req s).busvoltage)
            (board.fmt_f (metrics_state cfg board req s).current_mA))] := by
  obtain ⟨s1, new, h1, h2, h3⟩ := handle_http_metrics_success cfg board req s hns hok
  rw [snprintf_of_fits _ _ (by omega)] at h3
  exact ⟨s1, new, h1, h2, h3⟩

set_option maxRecDepth 100000 in
/-- C4, amended, on the scenario of the specification: namespace `batt`,
version `1.2.0`, board `esp_x`, sensor `ina219`, voltage 7.4, current 123.0.
The body starts with the HELP line of `batt_info` and holds the info line. -/
theorem metrics_body_exact_witness :
    (∃ s1 new, handle_http_metrics cfg_example (board_example [F32.v7_4] [F32.v123])
          req_example State.init = some s1
        ∧ s1.trace = State.init.trace ++ new
        ∧ responses new = [(200, text_plain,
            document "batt".toList "1.2.0".toList "esp_x".toList "ina219".toList
              "7.400000".toList "123.000000".toList)])
      ∧ "# HELP batt_info Metadata about the device.\n".toList
        <+: document "batt".toList "1.2.0".toList "esp_x".toList "ina219".toList
              "7.400000".toList "123.000000".toList
      ∧ "\nbatt_info\x7bversion=\"1.2.0\",board=\"esp_x\",sensor=\"ina219\"\x7d 1\n".toList
        <:+: document "batt".toList "1.2.0".toList "esp_x".toList "ina219".toList
              "7.400000".toList "123.000000".toList :=
  ⟨metrics_body_exact cfg_example (board_example [F32.v7_4] [F32.v123]) req_example
      State.init (by decide) (by decide) (by decide),
    by decide, by decide⟩

set_option maxRecDepth 100000 in
/-- C5 as stated fails: with the namespace `%s` the template holds fifteen
`%s` conversions for three string arguments.  Both readings are accepted, but
the fourth conversion meets a floating argument, for which printf has no defined
behaviour: no 200 body is produced at all. -/
theorem conversion_in_namespace_undefined :
    (isnan (metrics_state cfg_conversion (board_example [F32.v7_4] [F32.v123]) req_example
        State.init).busvoltage
      || isnan (metrics_state cfg_conversion (board_example [F32.v7_4] [F32.v123]) req_example
        State.init).current_mA) = false
      ∧ handle_http_metrics cfg_conversion (board_example [F32.v7_4] [F32.v123]) req_example
          State.init = none := by
  decide

/-- C5, amended.  For every namespace without a `%` character, identity
strings of any length and pair of readings accepted in this cycle,
`handle_http_metrics` sends exactly one response, status 200; its body has at
most 1023 bytes and is a prefix of the fully rendered document: the whole
document when that has at most 1023 bytes, its first 1023 bytes otherwise.
An oversize document is cut, never rejected. -/
theorem metrics_body_truncated (req : Request) (s : State)
    (hns : '%' ∉ cfg.PROM_NAMESPACE)
    (hok : (isnan (metrics_state cfg board req s).busvoltage
      || isnan (metrics_state cfg board req s).current_mA) = false) :
    ∃ s1 new body, handle_http_metrics cfg board req s = some s1
      ∧ s1.trace = s.trace ++ new
      ∧ responses new = [(200, text_plain, body)]
      ∧ body.length ≤ 1023
      ∧ body <+: document cfg.PROM_NAMESPACE cfg.VERSION cfg.BOARD_NAME cfg.SENSOR_NAME
          (board.fmt_f (metrics_state cfg board req s).busvoltage)
          (board.fmt_f (metrics_state cfg board req s).current_mA)
      ∧ ((document cfg.PROM_NAMESPACE cfg.VERSION cfg.BOARD_NAME cfg.SENSOR_NAME
            (board.fmt_f (metrics_state cfg board req s).busvoltage)
            (board.fmt_f (metrics_state cfg board req s).current_mA)).length ≤ 1023 →
          body = document cfg.PROM_NAMESPACE cfg.VERSION cfg.BOARD_NAME cfg.SENSOR_NAME
            (board.fmt_f (metrics_state cfg board req s).busvoltage)
            (board.fmt_f (metrics_state cfg board req s).current_mA))
      ∧ (1023 < (document cfg.PROM_NAMESPACE cfg.VERSION cfg.BOARD_NAME cfg.SENSOR_NAME
            (board.fmt_f (metrics_state cfg board req s).busvoltage)
            (board.fmt_f (metrics_state cfg board req s).current_mA)).length →
          body = (document cfg.PROM_NAMESPACE cfg.VERSION cfg.BOARD_NAME cfg.SENSOR_NAME
            (board.fmt_f (metrics_state cfg board req s).busvoltage)
            (board.fmt_f (metrics_state cfg board req s).current_mA)).take 1023
            ∧ body.length = 1023) := by
  obtain ⟨s1, new, h1, h2, h3⟩ := handle_http_metrics_success cfg board req s hns hok
  exact ⟨s1, new, _, h1, h2, h3, snprintf_length_le 1024 _, snprintf_prefix 1024 _,
    fun h => snprintf_of_fits 1024 _ (by omega),
    fun h => ⟨rfl, snprintf_of_long 1024 _ (by omega)⟩⟩

set_option maxRecDepth 100000 in
/-- C5, amended, on an oversize document: with a version string of 2000 bytes
the handler still answers 200, with a body of exactly 1023 bytes. -/
theorem metrics_body_truncated_witness :
    ∃ s1 new body, handle_http_metrics cfg_long (board_example [F32.v7_4] [F32.v123])
        req_example State.init = some s1
      ∧ s1.trace = State.init.trace ++ new
      ∧ responses new = [(200, text_plain, body)]
      ∧ body.length = 1023 := by
  obtain ⟨s1, new, body, h1, h2, h3, _, _, _, h7⟩ :=
    metrics_body_truncated cfg_long (board_example [F32.v7_4] [F32.v123]) req_example
      State.init (by decide) (by decide)
  refine ⟨s1, new, body, h1, h2, h3, (h7 ?_).2⟩
  unfold document
  simp only [List.length_append]
  have : cfg_long.VERSION.length = 2000 := by
    show (List.replicate 2000 'v').length = 2000
    rw [List.length_replicate]
  omega

end Body

end Exporter
